import Mathlib

/-!
Verification of the DFTL flash-translation layer (`hw/femu/bbssd/dftl.c`).

The definitions below are a shallow embedding of the C source.  Mutable
program state (`struct ssd`) becomes an explicit Lean structure that every
operation threads through; C functions that can only crash or `abort()`
(NULL dereference of an empty list head, no free line left) return
`Option`, with `none` marking the aborted execution.  `ftl_assert` is
compiled out in the source (`FEMU_DEBUG_FTL` is not defined), so asserts
are modelled as no-ops.  Machine integers are modelled as `Nat` (the
unsigned 64-bit fields never wrap on the reachable values considered) and
the C `int` counters as `Int`.
-/

namespace Dftl

/-- Sentinel for an unmapped reverse-map entry.  Modelled from the spec:
`INVALID_LPN` is defined in the missing header `dftl.h` as the all-ones
64-bit value. -/
def INVALID_LPN : Nat := 2 ^ 64 - 1

/-- Sentinel for an unmapped `ppn` number stored in a CMT entry.  Modelled
from the spec: `UNMAPPED_PPA` is the all-ones 64-bit value from the missing
header `dftl.h`. -/
def UNMAPPED_PPA_NUM : Nat := 2 ^ 64 - 1

/-- Modelled from the spec: `CMT_HASH_SIZE` lives in the missing header
`dftl.h`; the spec sizes it to the nearest power of two at least
`tt_cmt_size` (which is 8192 for the default geometry). -/
def CMT_HASH_SIZE : Nat := 8192

/-- Modelled from the spec: NAND latency constants from the missing header
(`NAND_READ_LATENCY` and friends); the exact values are
implementation-defined, these are the stock FEMU numbers. -/
def NAND_READ_LATENCY : Nat := 40000

/-- Modelled from the spec: NAND program latency constant from the missing
header. -/
def NAND_PROG_LATENCY : Nat := 200000

/-- Modelled from the spec: NAND erase latency constant from the missing
header. -/
def NAND_ERASE_LATENCY : Nat := 2000000

/-- The tunable fields of `struct ssdparams` (the derived fields of the C
struct are functions below, computed exactly as `ssd_init_params` does). -/
structure SSDParams where
  secs_per_pg : Nat
  pgs_per_blk : Nat
  blks_per_pl : Nat
  pls_per_lun : Nat
  luns_per_ch : Nat
  nchs : Nat
  pg_rd_lat : Nat
  pg_wr_lat : Nat
  blk_er_lat : Nat
  gc_thres_lines : Int
  gc_thres_lines_high : Int
  enable_gc_delay : Bool
  ents_per_pg : Nat
deriving DecidableEq, Repr

namespace SSDParams

/-- Derived field `spp->pgs_per_pl = pgs_per_blk * blks_per_pl`. -/
def pgs_per_pl (spp : SSDParams) : Nat := spp.pgs_per_blk * spp.blks_per_pl

/-- Derived field `spp->pgs_per_lun = pgs_per_pl * pls_per_lun`. -/
def pgs_per_lun (spp : SSDParams) : Nat := spp.pgs_per_pl * spp.pls_per_lun

/-- Derived field `spp->pgs_per_ch = pgs_per_lun * luns_per_ch`. -/
def pgs_per_ch (spp : SSDParams) : Nat := spp.pgs_per_lun * spp.luns_per_ch

/-- Derived field `spp->tt_pgs = pgs_per_ch * nchs`. -/
def tt_pgs (spp : SSDParams) : Nat := spp.pgs_per_ch * spp.nchs

/-- Derived field `spp->blks_per_lun = blks_per_pl * pls_per_lun`. -/
def blks_per_lun (spp : SSDParams) : Nat := spp.blks_per_pl * spp.pls_per_lun

/-- Derived field `spp->tt_luns = luns_per_ch * nchs`. -/
def tt_luns (spp : SSDParams) : Nat := spp.luns_per_ch * spp.nchs

/-- Derived field `spp->blks_per_line = tt_luns`. -/
def blks_per_line (spp : SSDParams) : Nat := spp.tt_luns

/-- Derived field `spp->pgs_per_line = blks_per_line * pgs_per_blk`. -/
def pgs_per_line (spp : SSDParams) : Nat := spp.blks_per_line * spp.pgs_per_blk

/-- Derived field `spp->tt_lines = blks_per_lun`. -/
def tt_lines (spp : SSDParams) : Nat := spp.blks_per_lun

/-- Derived field `spp->tt_gtd_size = tt_pgs / ents_per_pg`. -/
def tt_gtd_size (spp : SSDParams) : Nat := spp.tt_pgs / spp.ents_per_pg

/-- Derived field `spp->tt_blks = blks_per_pl * pls_per_lun * luns_per_ch * nchs`. -/
def tt_blks (spp : SSDParams) : Nat := spp.blks_per_lun * spp.luns_per_ch * spp.nchs

/-- Derived field `spp->tt_cmt_size = tt_blks / 2`. -/
def tt_cmt_size (spp : SSDParams) : Nat := spp.tt_blks / 2

end SSDParams

/-- The concrete parameter block produced by `ssd_init_params`.  The two GC
thresholds are computed in C through `double` arithmetic
(`(int)((1 - 0.75) * 256) = 64` and `(int)((1 - 0.95) * 256) = 12`); the
rounded results are recorded here. -/
def ssd_init_params : SSDParams where
  secs_per_pg := 8
  pgs_per_blk := 256
  blks_per_pl := 256
  pls_per_lun := 1
  luns_per_ch := 8
  nchs := 8
  pg_rd_lat := NAND_READ_LATENCY
  pg_wr_lat := NAND_PROG_LATENCY
  blk_er_lat := NAND_ERASE_LATENCY
  gc_thres_lines := 64
  gc_thres_lines_high := 12
  enable_gc_delay := true
  ents_per_pg := 512

/-- A physical page address (`struct ppa`).  The C type is a packed 64-bit
union; the all-ones pattern `UNMAPPED_PPA` is the `unmapped` constructor
and every other value in use is built from its bit fields. -/
inductive Ppa where
  | unmapped : Ppa
  | addr (ch lun pl blk pg sec : Nat) : Ppa
deriving DecidableEq, Repr

/-- C `mapped_ppa`: true unless the stored 64-bit value is `UNMAPPED_PPA`. -/
def mapped_ppa : Ppa → Bool
  | Ppa.unmapped => false
  | Ppa.addr _ _ _ _ _ _ => true

/-- C `valid_ppa`: each component lies within the geometry.  On
`UNMAPPED_PPA` every bit field is all-ones and exceeds its bound, so the
check is false. -/
def valid_ppa (spp : SSDParams) : Ppa → Bool
  | Ppa.unmapped => false
  | Ppa.addr ch lun pl blk pg sec =>
      decide (ch < spp.nchs) && decide (lun < spp.luns_per_ch) &&
      decide (pl < spp.pls_per_lun) && decide (blk < spp.blks_per_pl) &&
      decide (pg < spp.pgs_per_blk) && decide (sec < spp.secs_per_pg)

/-- C `ppa2pgidx`:
`ch*pgs_per_ch + lun*pgs_per_lun + pl*pgs_per_pl + blk*pgs_per_blk + pg`.
On `UNMAPPED_PPA` the C expression reads the all-ones bit fields and
produces an index far outside `[0, tt_pgs)`; that out-of-range result is
modelled as `tt_pgs` (any valid address has index `< tt_pgs`). -/
def ppa2pgidx (spp : SSDParams) : Ppa → Nat
  | Ppa.unmapped => spp.tt_pgs
  | Ppa.addr ch lun pl blk pg _ =>
      ch * spp.pgs_per_ch + lun * spp.pgs_per_lun + pl * spp.pgs_per_pl +
        blk * spp.pgs_per_blk + pg

/-- Identifier of a physical page: `(ch, lun, pl, blk, pg)`.  The NAND
array (`ssd->ch[..].lun[..].pl[..].blk[..].pg[..]`) is modelled as a map
keyed by this tuple. -/
abbrev PageId := Nat × Nat × Nat × Nat × Nat

/-- Identifier of a NAND block: `(ch, lun, pl, blk)`. -/
abbrev BlkId := Nat × Nat × Nat × Nat

/-- Identifier of a LUN: `(ch, lun)`. -/
abbrev LunId := Nat × Nat

/-- The page addressed by a PPA (the lookup path of C `get_pg`).  The
`unmapped` case corresponds to an out-of-bounds array access in C and is
mapped to a dummy id; all verified executions only look up mapped PPAs. -/
def pageIdOf : Ppa → PageId
  | Ppa.unmapped => (0, 0, 0, 0, 0)
  | Ppa.addr ch lun pl blk pg _ => (ch, lun, pl, blk, pg)

/-- The block addressed by a PPA (C `get_blk`). -/
def blkIdOf : Ppa → BlkId
  | Ppa.unmapped => (0, 0, 0, 0)
  | Ppa.addr ch lun pl blk _ _ => (ch, lun, pl, blk)

/-- The LUN addressed by a PPA (C `get_lun`). -/
def lunIdOf : Ppa → LunId
  | Ppa.unmapped => (0, 0)
  | Ppa.addr ch lun _ _ _ _ => (ch, lun)

/-- The line addressed by a PPA (C `get_line`: `&lm.lines[ppa->g.blk]`). -/
def lineIdOf : Ppa → Nat
  | Ppa.unmapped => 0
  | Ppa.addr _ _ _ blk _ _ => blk

/-- Page status (`nand_page.status`). -/
inductive PgStatus where
  | free
  | invalid
  | valid
deriving DecidableEq, Repr

/-- Line type (`line.type`): `NONE`, `DATA` or `TRANS`. -/
inductive LineType where
  | none
  | data
  | trans
deriving DecidableEq, Repr

/-- A super-block line (`struct line`).  The `id` is the index into the
line array; the pqueue position `pos` is represented by membership in the
victim queue list (the pqueue library keeps `pos` equal to the heap slot
of every queued line and `0` otherwise, so `pos != 0` iff queued). -/
structure Line where
  ipc : Int
  vpc : Int
  typ : LineType
deriving DecidableEq, Repr

/-- A write frontier (`struct write_pointer` / `struct trans_write_pointer`).
`curline` holds the id of the current line (a pointer in C). -/
structure WritePointer where
  curline : Nat
  ch : Nat
  lun : Nat
  pg : Nat
  blk : Nat
  pl : Nat
deriving DecidableEq, Repr

/-- A cached-mapping-table entry (`struct cmt_entry`); `dirty` is `true`
for `DIRTY` and `false` for `CLEAN`. -/
structure CmtEntry where
  lpn : Nat
  ppn : Nat
  dirty : Bool
deriving DecidableEq, Repr

/-- CMT bookkeeping (`struct cmt_mgmt`).  The entry arena is a map from
slot index to entry; the LRU list (`cmt_entry_list`, MRU at the head), the
free list and the hash buckets hold slot indices, mirroring the C intrusive
pointers. -/
structure CmtMgmt where
  tt_entries : Nat
  free_cmt_entry_cnt : Int
  used_cmt_entry_cnt : Int
  entries : Nat → CmtEntry
  free_list : List Nat
  used_list : List Nat
  ht : Nat → List Nat

/-- Kind of a NAND command (`NAND_READ` / `NAND_WRITE` / `NAND_ERASE`). -/
inductive NandKind where
  | read
  | write
  | erase
deriving DecidableEq, Repr

/-- Origin of a NAND command (`USER_IO` / `GC_IO` in `nand_cmd.type`). -/
inductive CmdOrigin where
  | user
  | gc
deriving DecidableEq, Repr

/-- Ghost record of one NAND command issued through `ssd_advance_status`.
The trace is auxiliary observation only; it never feeds back into the
behaviour of any operation. -/
structure NandEvt where
  origin : CmdOrigin
  kind : NandKind
  ppa : Ppa
deriving DecidableEq, Repr

/-- The whole device state (`struct ssd` without the host plumbing).
Arrays become total maps; the two intrusive line lists stay lists of line
ids and the victim priority queue is the heap array of the pqueue library
(root first). -/
structure SSD where
  maptbl : Nat → Ppa
  rmap : Nat → Nat
  gtd : Nat → Ppa
  pages : PageId → PgStatus
  blk_ipc : BlkId → Int
  blk_vpc : BlkId → Int
  blk_erase_cnt : BlkId → Nat
  lines : Nat → Line
  free_line_list : List Nat
  victim_pq : List Nat
  full_line_list : List Nat
  free_line_cnt : Int
  victim_line_cnt : Int
  full_line_cnt : Int
  wp : WritePointer
  twp : WritePointer
  cm : CmtMgmt
  lun_avail : LunId → Nat
  lun_gc_endtime : LunId → Nat
  ch_avail : Nat → Nat
  stat_access_cnt : Nat
  stat_cmt_hit_cnt : Nat
  stat_cmt_miss_cnt : Nat
  trace : List NandEvt

/-- Pointwise update of a total map (the effect of a C array store). -/
def fupd {α β : Type} [DecidableEq α] (f : α → β) (a : α) (b : β) : α → β :=
  fun x => if x = a then b else f x

@[simp] theorem fupd_same {α β : Type} [DecidableEq α] (f : α → β) (a : α) (b : β) :
    fupd f a b a = b := by simp [fupd]

@[simp] theorem fupd_other {α β : Type} [DecidableEq α] (f : α → β) (a : α) (b : β)
    (x : α) (h : x ≠ a) : fupd f a b x = f x := by simp [fupd, h]

/-! ### The victim priority queue

The pqueue library (`hw/femu/lib/pqueue.c`) is not part of the extracted
source.  Modelled from the spec: a binary heap stored in an array, with
the comparison callback `victim_line_cmp_pri` from `dftl.c` deciding which
of a parent/child pair may sit above the other (a node bubbles above its
parent exactly when the callback holds of the parent and node priorities),
`pqueue_peek` returning the root, `pqueue_insert` appending then bubbling
up, `pqueue_pop` moving the last slot to the root and percolating down,
and `pqueue_change_priority` restoring the heap shape after a priority
update (bubbling up when the callback holds of the old and new priority,
else percolating down).  The heap is generic in `pri`, the priority
callback (`victim_line_get_pri` reads `line->vpc`). -/

/-- C `victim_line_cmp_pri`: `return (next > curr);`. -/
def victim_line_cmp_pri (next curr : Int) : Bool := next > curr

/-- C `victim_line_get_pri`: the priority of a queued line is its `vpc`. -/
def victim_line_get_pri (lines : Nat → Line) (i : Nat) : Int := (lines i).vpc

/-- Swap two slots of the heap array. -/
def hswap (q : List Nat) (i j : Nat) : List Nat :=
  match q[i]?, q[j]? with
  | some a, some b => (q.set i b).set j a
  | _, _ => q

@[simp] theorem hswap_length (q : List Nat) (i j : Nat) :
    (hswap q i j).length = q.length := by
  unfold hswap
  cases hi : q[i]? <;> cases hj : q[j]? <;> simp

/-- Heap bubble-up (libpqueue `bubble_up`), written with explicit fuel so
that it is structurally recursive and computes by reduction; each step
moves from slot `k` to its parent `(k-1)/2 < k`, so fuel `k + 1` always
suffices and `bubble_up` below supplies it. -/
def bubble_up_go (pri : Nat → Int) : Nat → List Nat → Nat → List Nat
  | 0, q, _ => q
  | fuel + 1, q, k =>
      if k = 0 then q
      else
        let p := (k - 1) / 2
        match q[p]?, q[k]? with
        | some a, some b =>
            if victim_line_cmp_pri (pri a) (pri b) then
              bubble_up_go pri fuel (hswap q p k) p
            else q
        | _, _ => q

/-- Heap bubble-up starting from slot `k`. -/
def bubble_up (pri : Nat → Int) (q : List Nat) (k : Nat) : List Nat :=
  bubble_up_go pri (k + 1) q k

/-- The preferred child of slot `k`, if any (libpqueue `maxchild`). -/
def heap_child (pri : Nat → Int) (q : List Nat) (k : Nat) : Option Nat :=
  if h1 : 2 * k + 1 < q.length then
    if 2 * k + 2 < q.length ∧
        victim_line_cmp_pri (pri (q.getD (2 * k + 1) 0)) (pri (q.getD (2 * k + 2) 0)) then
      some (2 * k + 2)
    else some (2 * k + 1)
  else none

/-- Heap percolate-down (libpqueue `percolate_down`), with explicit fuel;
each step moves from slot `k` to a child `≥ k + 1` below `q.length`, so
fuel `q.length` always suffices and `percolate_down` below supplies it. -/
def percolate_down_go (pri : Nat → Int) : Nat → List Nat → Nat → List Nat
  | 0, q, _ => q
  | fuel + 1, q, k =>
      match heap_child pri q k with
      | none => q
      | some c =>
          if victim_line_cmp_pri (pri (q.getD k 0)) (pri (q.getD c 0)) then
            percolate_down_go pri fuel (hswap q k c) c
          else q

/-- Heap percolate-down starting from slot `k`. -/
def percolate_down (pri : Nat → Int) (q : List Nat) (k : Nat) : List Nat :=
  percolate_down_go pri q.length q k

/-- libpqueue `pqueue_insert`: append to the last slot, then bubble up. -/
def pqueue_insert (pri : Nat → Int) (q : List Nat) (i : Nat) : List Nat :=
  bubble_up pri (q ++ [i]) q.length

/-- libpqueue `pqueue_peek`: the root slot. -/
def pqueue_peek (q : List Nat) : Option Nat := q.head?

/-- libpqueue `pqueue_pop`: move the last slot to the root, shrink,
percolate down. -/
def pqueue_pop (pri : Nat → Int) (q : List Nat) : List Nat :=
  match q.getLast? with
  | none => []
  | some last =>
      if q.length ≤ 1 then []
      else percolate_down pri ((q.set 0 last).dropLast) 0

/-- libpqueue `pqueue_change_priority` after the `setpri` callback has
already stored the new priority: restore the heap shape from slot `k`. -/
def pqueue_change_priority (pri : Nat → Int) (q : List Nat) (k : Nat)
    (oldp newp : Int) : List Nat :=
  if victim_line_cmp_pri oldp newp then bubble_up pri q k
  else percolate_down pri q k

/-- The binary-heap shape invariant maintained by the pqueue operations:
the comparison callback never holds of a parent priority against a child
priority. -/
def HeapInv (pri : Nat → Int) (q : List Nat) : Prop :=
  ∀ k < q.length, ∀ c < q.length, (c = 2 * k + 1 ∨ c = 2 * k + 2) →
    victim_line_cmp_pri (pri (q.getD k 0)) (pri (q.getD c 0)) = false

instance (pri : Nat → Int) (q : List Nat) : Decidable (HeapInv pri q) := by
  unfold HeapInv
  infer_instance

/-! ### Map accessors (`get_maptbl_ent` and friends) -/

/-- C `get_maptbl_ent`. -/
def get_maptbl_ent (s : SSD) (lpn : Nat) : Ppa := s.maptbl lpn

/-- C `set_maptbl_ent` (its `ftl_assert` is compiled out). -/
def set_maptbl_ent (s : SSD) (lpn : Nat) (ppa : Ppa) : SSD :=
  { s with maptbl := fupd s.maptbl lpn ppa }

/-- C `get_gtd_ent`. -/
def get_gtd_ent (s : SSD) (tvpn : Nat) : Ppa := s.gtd tvpn

/-- C `set_gtd_ent`. -/
def set_gtd_ent (s : SSD) (tvpn : Nat) (ppa : Ppa) : SSD :=
  { s with gtd := fupd s.gtd tvpn ppa }

/-- C `get_rmap_ent`: `rmap[ppa2pgidx(ppa)]`. -/
def get_rmap_ent (spp : SSDParams) (s : SSD) (ppa : Ppa) : Nat :=
  s.rmap (ppa2pgidx spp ppa)

/-- C `set_rmap_ent`: `rmap[ppa2pgidx(ppa)] = lpn`. -/
def set_rmap_ent (spp : SSDParams) (s : SSD) (lpn : Nat) (ppa : Ppa) : SSD :=
  { s with rmap := fupd s.rmap (ppa2pgidx spp ppa) lpn }

/-- C `should_gc`. -/
def should_gc (s : SSD) (spp : SSDParams) : Bool :=
  s.free_line_cnt ≤ spp.gc_thres_lines

/-- C `should_gc_high`. -/
def should_gc_high (s : SSD) (spp : SSDParams) : Bool :=
  s.free_line_cnt ≤ spp.gc_thres_lines_high

/-! ### NAND timing model -/

/-- C `ssd_advance_status`.  A submission time of `0` is replaced by the
current wall clock (`qemu_clock_get_ns`), passed in as `now`.  The ternary
`(lun->next_lun_avail_time < cmd_stime) ? cmd_stime : ...` is `max`.  The
`USER_IO`/`GC_IO` branches of the write case are identical in the source.
Channel transfer is compiled out (`#if 0`), so `ch_avail` never moves.
Besides the latency result and the LUN clock, the ghost `trace` records
the command. -/
def ssd_advance_status (spp : SSDParams) (s : SSD) (ppa : Ppa)
    (origin : CmdOrigin) (kind : NandKind) (stime now : Nat) : Nat × SSD :=
  let cmd_stime := if stime = 0 then now else stime
  let lun := lunIdOf ppa
  let s := { s with trace := s.trace ++ [NandEvt.mk origin kind ppa] }
  let lat_of : Nat → Nat × SSD := fun op_lat =>
    let nand_stime := max (s.lun_avail lun) cmd_stime
    let avail := nand_stime + op_lat
    (avail - cmd_stime, { s with lun_avail := fupd s.lun_avail lun avail })
  match kind with
  | NandKind.read => lat_of spp.pg_rd_lat
  | NandKind.write => lat_of spp.pg_wr_lat
  | NandKind.erase => lat_of spp.blk_er_lat

/-! ### Page and block state transitions -/

/-- C `mark_page_invalid`.  The page flips to `PG_INVALID`, the block
counters move, the line's `ipc` rises and its `vpc` falls — through
`pqueue_change_priority` when the line is queued (`line->pos != 0`,
i.e. membership in the victim queue), directly otherwise.  A previously
full line migrates from the full list into the victim queue. -/
def mark_page_invalid (spp : SSDParams) (s : SSD) (ppa : Ppa) : SSD :=
  let pid := pageIdOf ppa
  let bid := blkIdOf ppa
  let l := lineIdOf ppa
  let s1 := { s with pages := fupd s.pages pid PgStatus.invalid,
                     blk_ipc := fupd s.blk_ipc bid (s.blk_ipc bid + 1),
                     blk_vpc := fupd s.blk_vpc bid (s.blk_vpc bid - 1) }
  let was_full := (s1.lines l).vpc = (spp.pgs_per_line : Int)
  let s2 := { s1 with
              lines := fupd s1.lines l { s1.lines l with ipc := (s1.lines l).ipc + 1 } }
  let s3 :=
    if s2.victim_pq.contains l then
      let oldp := (s2.lines l).vpc
      let lines2 := fupd s2.lines l { s2.lines l with vpc := oldp - 1 }
      { s2 with lines := lines2,
                victim_pq := pqueue_change_priority (victim_line_get_pri lines2)
                  s2.victim_pq (s2.victim_pq.indexOf l) oldp (oldp - 1) }
    else
      { s2 with lines := fupd s2.lines l { s2.lines l with vpc := (s2.lines l).vpc - 1 } }
  if was_full then
    { s3 with full_line_list := s3.full_line_list.erase l,
              full_line_cnt := s3.full_line_cnt - 1,
              victim_pq := pqueue_insert (victim_line_get_pri s3.lines) s3.victim_pq l,
              victim_line_cnt := s3.victim_line_cnt + 1 }
  else s3

/-- C `mark_page_valid`: page to `PG_VALID`, block `vpc++`, line `vpc++`. -/
def mark_page_valid (s : SSD) (ppa : Ppa) : SSD :=
  let pid := pageIdOf ppa
  let bid := blkIdOf ppa
  let l := lineIdOf ppa
  { s with pages := fupd s.pages pid PgStatus.valid,
           blk_vpc := fupd s.blk_vpc bid (s.blk_vpc bid + 1),
           lines := fupd s.lines l { s.lines l with vpc := (s.lines l).vpc + 1 } }

/-- C `mark_block_free`: every page of the block back to `PG_FREE`
(the loop over `pg[0..pgs_per_blk)`), counters zeroed, erase count up. -/
def mark_block_free (spp : SSDParams) (s : SSD) (ppa : Ppa) : SSD :=
  let bid := blkIdOf ppa
  { s with pages := fun pid =>
             if pid.1 = bid.1 ∧ pid.2.1 = bid.2.1 ∧ pid.2.2.1 = bid.2.2.1 ∧
                 pid.2.2.2.1 = bid.2.2.2 ∧ pid.2.2.2.2 < spp.pgs_per_blk then
               PgStatus.free
             else s.pages pid,
           blk_ipc := fupd s.blk_ipc bid 0,
           blk_vpc := fupd s.blk_vpc bid 0,
           blk_erase_cnt := fupd s.blk_erase_cnt bid (s.blk_erase_cnt bid + 1) }

/-! ### Write frontiers -/

/-- C `get_new_page`: the PPA at the data frontier (`sec` is 0 because the
struct is zeroed first). -/
def get_new_page (s : SSD) : Ppa :=
  Ppa.addr s.wp.ch s.wp.lun s.wp.pl s.wp.blk s.wp.pg 0

/-- C `get_new_trans_page`: the PPA at the translation frontier. -/
def get_new_trans_page (s : SSD) : Ppa :=
  Ppa.addr s.twp.ch s.twp.lun s.twp.pl s.twp.blk s.twp.pg 0

/-- C `get_next_free_line`: pop the head of the free-line list; `none`
when it is empty (the C caller then `abort()`s). -/
def get_next_free_line (s : SSD) : Option (Nat × SSD) :=
  match s.free_line_list with
  | [] => none
  | l :: rest =>
      some (l, { s with free_line_list := rest, free_line_cnt := s.free_line_cnt - 1 })

/-- The "move current line to {victim,full} line list" block shared by the
two frontier-advance functions: a fully written line whose pages are all
still valid goes to the full list, otherwise it enters the victim queue. -/
def retire_line (spp : SSDParams) (s : SSD) (cur : Nat) : SSD :=
  if (s.lines cur).vpc = (spp.pgs_per_line : Int) then
    { s with full_line_list := s.full_line_list ++ [cur],
             full_line_cnt := s.full_line_cnt + 1 }
  else
    { s with victim_pq := pqueue_insert (victim_line_get_pri s.lines) s.victim_pq cur,
             victim_line_cnt := s.victim_line_cnt + 1 }

/-- C `ssd_advance_write_pointer`: bump `ch`, wrapping into `lun`, then
`pg`; on a full wrap retire the current line (`retire_line`) and pull a
fresh free line, typed `DATA`.  `none` models the `abort()` when no free
line is left. -/
def ssd_advance_write_pointer (spp : SSDParams) (s : SSD) : Option SSD :=
  if s.wp.ch + 1 = spp.nchs then
    if s.wp.lun + 1 = spp.luns_per_ch then
      if s.wp.pg + 1 = spp.pgs_per_blk then
        match get_next_free_line (retire_line spp s s.wp.curline) with
        | none => none
        | some (newl, s2) =>
            some { s2 with
                   lines := fupd s2.lines newl { s2.lines newl with typ := LineType.data },
                   wp := { curline := newl, ch := 0, lun := 0, pg := 0, blk := newl,
                           pl := s.wp.pl } }
      else some { s with wp := { s.wp with ch := 0, lun := 0, pg := s.wp.pg + 1 } }
    else some { s with wp := { s.wp with ch := 0, lun := s.wp.lun + 1 } }
  else some { s with wp := { s.wp with ch := s.wp.ch + 1 } }

/-- C `ssd_advance_trans_write_pointer`: same stepping for the translation
frontier, fresh lines typed `TRANS`. -/
def ssd_advance_trans_write_pointer (spp : SSDParams) (s : SSD) : Option SSD :=
  if s.twp.ch + 1 = spp.nchs then
    if s.twp.lun + 1 = spp.luns_per_ch then
      if s.twp.pg + 1 = spp.pgs_per_blk then
        match get_next_free_line (retire_line spp s s.twp.curline) with
        | none => none
        | some (newl, s2) =>
            some { s2 with
                   lines := fupd s2.lines newl { s2.lines newl with typ := LineType.trans },
                   twp := { curline := newl, ch := 0, lun := 0, pg := 0, blk := newl,
                            pl := s.twp.pl } }
      else some { s with twp := { s.twp with ch := 0, lun := 0, pg := s.twp.pg + 1 } }
    else some { s with twp := { s.twp with ch := 0, lun := s.twp.lun + 1 } }
  else some { s with twp := { s.twp with ch := s.twp.ch + 1 } }

/-! ### CMT hash table, LRU and eviction -/

/-- C `cmt_hash`. -/
def cmt_hash (lpn : Nat) : Nat := lpn % CMT_HASH_SIZE

/-- C `find_hash_entry`: walk the bucket chain for a matching `lpn`. -/
def find_hash_entry (cm : CmtMgmt) (lpn : Nat) : Option Nat :=
  (cm.ht (cmt_hash lpn)).find? (fun i => (cm.entries i).lpn == lpn)

/-- C `insert_cmt_hashtable`: push the entry at the front of its bucket. -/
def insert_cmt_hashtable (cm : CmtMgmt) (idx : Nat) : CmtMgmt :=
  let pos := cmt_hash ((cm.entries idx).lpn)
  { cm with ht := fupd cm.ht pos (idx :: cm.ht pos) }

/-- C `delete_cmt_hashnode`: unlink the entry from its bucket (returns
whether it was found; an absent entry leaves the bucket unchanged). -/
def delete_cmt_hashnode (cm : CmtMgmt) (idx : Nat) : Bool × CmtMgmt :=
  let pos := cmt_hash ((cm.entries idx).lpn)
  (cm.ht pos |>.contains idx,
   { cm with ht := fupd cm.ht pos ((cm.ht pos).erase idx) })

/-- C `cmt_hit`: hash lookup; on a hit the entry moves to the head of the
LRU list. -/
def cmt_hit (s : SSD) (lpn : Nat) : Option Nat × SSD :=
  match find_hash_entry s.cm lpn with
  | none => (none, s)
  | some idx =>
      (some idx,
       { s with cm := { s.cm with used_list := idx :: s.cm.used_list.erase idx } })

/-- C `insert_entry_to_cmt`: take the head of the free list (`none`
models the NULL dereference when it is empty), fill it in CLEAN, put it at
the LRU head and into the hash. -/
def insert_entry_to_cmt (s : SSD) (lpn ppn : Nat) : Option SSD :=
  match s.cm.free_list with
  | [] => none
  | idx :: rest =>
      let entries1 := fupd s.cm.entries idx { lpn := lpn, ppn := ppn, dirty := false }
      let cm1 := { s.cm with
                   entries := entries1,
                   free_list := rest,
                   free_cmt_entry_cnt := s.cm.free_cmt_entry_cnt - 1,
                   used_list := idx :: s.cm.used_list,
                   used_cmt_entry_cnt := s.cm.used_cmt_entry_cnt + 1 }
      some { s with cm := insert_cmt_hashtable cm1 idx }

/-! ### Translation-page I/O -/

/-- C `translation_page_read`: one `USER_IO` NAND read at the translation
page, submitted at the request's `stime`. -/
def translation_page_read (spp : SSDParams) (s : SSD) (ppa : Ppa)
    (stime now : Nat) : Nat × SSD :=
  ssd_advance_status spp s ppa CmdOrigin.user NandKind.read stime now

/-- C `translation_page_read_no_req`: the same read with `stime = 0`
("now"). -/
def translation_page_read_no_req (spp : SSDParams) (s : SSD) (ppa : Ppa)
    (now : Nat) : Nat × SSD :=
  ssd_advance_status spp s ppa CmdOrigin.user NandKind.read 0 now

/-- C `translation_page_write`: re-derive `tvpn` from the reverse map of
the old page, invalidate the old page (clearing its rmap) when it is
mapped, then place the translation page at the `twp` frontier: set
`gtd[tvpn]` and `rmap`, mark valid, advance `twp` (`none` on frontier
abort) and pay one NAND write at `stime = 0`. -/
def translation_page_write (spp : SSDParams) (s : SSD) (old_ppa : Ppa)
    (now : Nat) : Option (Nat × SSD) :=
  let tvpn := get_rmap_ent spp s old_ppa
  let s1 :=
    if mapped_ppa old_ppa then
      set_rmap_ent spp (mark_page_invalid spp s old_ppa) INVALID_LPN old_ppa
    else s
  let new_ppa := get_new_trans_page s1
  let s2 := set_gtd_ent s1 tvpn new_ppa
  let s3 := set_rmap_ent spp s2 tvpn new_ppa
  let s4 := mark_page_valid s3 new_ppa
  (ssd_advance_trans_write_pointer spp s4).map fun s5 =>
    ssd_advance_status spp s5 new_ppa CmdOrigin.user NandKind.write 0 now

/-- C `translation_page_new_write`: first-ever write of the translation
page `tvpn` — no old page to read or invalidate. -/
def translation_page_new_write (spp : SSDParams) (s : SSD) (tvpn : Nat)
    (now : Nat) : Option (Nat × SSD) :=
  let new_ppa := get_new_trans_page s
  let s2 := set_gtd_ent s tvpn new_ppa
  let s3 := set_rmap_ent spp s2 tvpn new_ppa
  let s4 := mark_page_valid s3 new_ppa
  (ssd_advance_trans_write_pointer spp s4).map fun s5 =>
    ssd_advance_status spp s5 new_ppa CmdOrigin.user NandKind.write 0 now

/-- The `if (cmt_entry->dirty == DIRTY)` block of C `evict_entry_from_cmt`:
write the evicted entry's translation page back — a fresh write when
`gtd[tvpn]` is unmapped or invalid, else a read of the old translation
page followed by the write. -/
def evict_writeback (spp : SSDParams) (s0 : SSD) (lpn : Nat) (dirty : Bool)
    (now : Nat) : Option SSD :=
  if dirty then
    let tvpn := lpn / spp.ents_per_pg
    let ppa := get_gtd_ent s0 tvpn
    if !(mapped_ppa ppa) || !(valid_ppa spp ppa) then
      (translation_page_new_write spp s0 tvpn now).map Prod.snd
    else
      let s1 := (translation_page_read_no_req spp s0 ppa now).2
      (translation_page_write spp s1 ppa now).map Prod.snd
  else some s0

/-- C `evict_entry_from_cmt`: detach the LRU tail (`none` models the NULL
dereference on an empty LRU list); when dirty, write its translation page
back (`evict_writeback`); then unhash the entry, reset it and append it to
the free list. -/
def evict_entry_from_cmt (spp : SSDParams) (s : SSD) (now : Nat) : Option SSD :=
  match s.cm.used_list.getLast? with
  | none => none
  | some idx =>
      let s0 := { s with cm := { s.cm with used_list := s.cm.used_list.dropLast } }
      let e := s0.cm.entries idx
      (evict_writeback spp s0 e.lpn e.dirty now).bind fun s2 =>
        let cm2 := (delete_cmt_hashnode s2.cm idx).2
        let cm3 := { cm2 with
                     entries := fupd cm2.entries idx
                       { lpn := INVALID_LPN, ppn := UNMAPPED_PPA_NUM, dirty := false },
                     free_list := cm2.free_list ++ [idx],
                     free_cmt_entry_cnt := cm2.free_cmt_entry_cnt + 1,
                     used_cmt_entry_cnt := cm2.used_cmt_entry_cnt - 1 }
        some { s2 with cm := cm3 }

/-! ### Miss handling on the read and write paths -/

/-- The insert-or-evict-then-insert cascade that `dftl.c` repeats at every
CMT fill site (`used < tt` / `used == tt` / overflow, the last only logging
`ftl_err` and inserting nothing). -/
def cmt_fill (spp : SSDParams) (s : SSD) (lpn ppn : Nat) (now : Nat) : Option SSD :=
  if s.cm.used_cmt_entry_cnt < (s.cm.tt_entries : Int) then
    insert_entry_to_cmt s lpn ppn
  else if s.cm.used_cmt_entry_cnt = (s.cm.tt_entries : Int) then
    (evict_entry_from_cmt spp s now).bind fun s1 => insert_entry_to_cmt s1 lpn ppn
  else some s

/-- C `process_translation_page_read`: resolve the translation page from
the GTD (`none` in the first component when it or the final mapping is
absent — the caller skips the LPN), pay the translation-page read (the C
caller discards its return value; only the LUN clock carries it), then
cache the resolved mapping.  The outer `Option` is crash propagation from
the CMT fill. -/
def process_translation_page_read (spp : SSDParams) (s : SSD) (req_stime : Nat)
    (lpn now : Nat) : Option (Option LunId × SSD) :=
  let tvpn := lpn / spp.ents_per_pg
  let ppa := get_gtd_ent s tvpn
  if !(mapped_ppa ppa) || !(valid_ppa spp ppa) then some (none, s)
  else
    let s1 := (translation_page_read spp s ppa req_stime now).2
    let lunp := lunIdOf ppa
    let ppa2 := get_maptbl_ent s1 lpn
    if !(mapped_ppa ppa2) || !(valid_ppa spp ppa2) then some (none, s1)
    else
      (cmt_fill spp s1 lpn (ppa2pgidx spp ppa2) now).map fun s2 => (some lunp, s2)

/-- C `process_translation_page_write`: like the read-path miss handler,
but a missing GTD entry or missing mapping caches an `UNMAPPED_PPA` entry
with no NAND read at all. -/
def process_translation_page_write (spp : SSDParams) (s : SSD) (req_stime : Nat)
    (lpn now : Nat) : Option (Option LunId × SSD) :=
  let tvpn := lpn / spp.ents_per_pg
  let ppa := get_gtd_ent s tvpn
  if !(mapped_ppa ppa) || !(valid_ppa spp ppa) then
    (cmt_fill spp s lpn UNMAPPED_PPA_NUM now).map fun s1 => (none, s1)
  else
    let s1 := (translation_page_read spp s ppa req_stime now).2
    let lunp := lunIdOf ppa
    let ppa2 := get_maptbl_ent s1 lpn
    if !(mapped_ppa ppa2) || !(valid_ppa spp ppa2) then
      (cmt_fill spp s1 lpn UNMAPPED_PPA_NUM now).map fun s2 => (some lunp, s2)
    else
      (cmt_fill spp s1 lpn (ppa2pgidx spp ppa2) now).map fun s2 => (some lunp, s2)

/-! ### Garbage collection -/

/-- C `gc_read_page`: a `GC_IO` NAND read, only when `enable_gc_delay`. -/
def gc_read_page (spp : SSDParams) (s : SSD) (ppa : Ppa) (now : Nat) : SSD :=
  if spp.enable_gc_delay then
    (ssd_advance_status spp s ppa CmdOrigin.gc NandKind.read 0 now).2
  else s

/-- C `gc_write_page`: relocate the valid data page at `old_ppa` to the
data frontier — update `maptbl` and `rmap`, mark the new page valid,
advance `wp` (`none` on abort), charge a GC write when enabled and record
`gc_endtime` on the destination LUN.  The old page is left untouched. -/
def gc_write_page (spp : SSDParams) (s : SSD) (old_ppa : Ppa) (now : Nat) :
    Option SSD :=
  let lpn := get_rmap_ent spp s old_ppa
  let new_ppa := get_new_page s
  let s1 := set_maptbl_ent s lpn new_ppa
  let s2 := set_rmap_ent spp s1 lpn new_ppa
  let s3 := mark_page_valid s2 new_ppa
  (ssd_advance_write_pointer spp s3).map fun s4 =>
    let s5 :=
      if spp.enable_gc_delay then
        (ssd_advance_status spp s4 new_ppa CmdOrigin.gc NandKind.write 0 now).2
      else s4
    let nl := lunIdOf new_ppa
    { s5 with lun_gc_endtime := fupd s5.lun_gc_endtime nl (s5.lun_avail nl) }

/-- C `gc_translation_page_write`: relocate the valid translation page at
`old_ppa` to the translation frontier — update `gtd` and `rmap`, mark
valid, advance `twp`, charge a GC write, record `gc_endtime`.  As with
data relocation the old page is left untouched. -/
def gc_translation_page_write (spp : SSDParams) (s : SSD) (old_ppa : Ppa)
    (now : Nat) : Option SSD :=
  let tvpn := get_rmap_ent spp s old_ppa
  let new_ppa := get_new_trans_page s
  let s1 := set_gtd_ent s tvpn new_ppa
  let s2 := set_rmap_ent spp s1 tvpn new_ppa
  let s3 := mark_page_valid s2 new_ppa
  (ssd_advance_trans_write_pointer spp s3).map fun s4 =>
    let s5 :=
      if spp.enable_gc_delay then
        (ssd_advance_status spp s4 new_ppa CmdOrigin.gc NandKind.write 0 now).2
      else s4
    let nl := lunIdOf new_ppa
    { s5 with lun_gc_endtime := fupd s5.lun_gc_endtime nl (s5.lun_avail nl) }

/-- C `select_victim_line`: peek the queue (`none` when empty); without
`force` decline a victim whose `ipc` is below an eighth of a line;
otherwise pop it (which clears its stored position) and drop the count. -/
def select_victim_line (spp : SSDParams) (s : SSD) (force : Bool) :
    Option Nat × SSD :=
  match pqueue_peek s.victim_pq with
  | none => (none, s)
  | some v =>
      if !force && (s.lines v).ipc < ((spp.pgs_per_line / 8 : Nat) : Int) then
        (none, s)
      else
        (some v,
         { s with victim_pq := pqueue_pop (victim_line_get_pri s.lines) s.victim_pq,
                  victim_line_cnt := s.victim_line_cnt - 1 })

/-- One iteration of the page loop of C `clean_one_data_block`: skip
non-valid pages; for a valid page charge the GC read, resolve the LPN from
the reverse map, and either warn ("data block contains translation page")
when `maptbl` does not point back, or relocate with `gc_write_page` and
propagate the move to the CMT — patching a cached entry in place (DIRTY),
or running one translation-page read+write cycle per TVPN not yet seen in
this block's `batch_update` array. -/
def clean_data_pg_step (spp : SSDParams) (ch lun blk now : Nat)
    (s : SSD) (batch : List Nat) (pg : Nat) : Option (SSD × List Nat) :=
  let ppa := Ppa.addr ch lun 0 blk pg 0
  if s.pages (pageIdOf ppa) = PgStatus.valid then
    let s1 := gc_read_page spp s ppa now
    let lpn := get_rmap_ent spp s1 ppa
    if ppa2pgidx spp ppa ≠ ppa2pgidx spp (get_maptbl_ent s1 lpn) then
      some (s1, batch)
    else
      (gc_write_page spp s1 ppa now).bind fun s2 =>
        match find_hash_entry s2.cm lpn with
        | some idx =>
            let new_ppa := get_maptbl_ent s2 lpn
            let e := s2.cm.entries idx
            some ({ s2 with cm := { s2.cm with entries :=
                     (fupd s2.cm.entries idx
                       { e with ppn := ppa2pgidx spp new_ppa, dirty := true }) } }, batch)
        | none =>
            let tvpn := lpn / spp.ents_per_pg
            if batch.contains tvpn then some (s2, batch)
            else
              let t_ppa := get_gtd_ent s2 tvpn
              let s3 := (translation_page_read_no_req spp s2 t_ppa now).2
              (translation_page_write spp s3 t_ppa now).map fun p =>
                (p.2, batch ++ [tvpn])
  else some (s, batch)

/-- The page loop of C `clean_one_data_block`, threading the state and the
block-local `batch_update` list. -/
def clean_data_pgs (spp : SSDParams) (ch lun blk now : Nat) :
    List Nat → SSD → List Nat → Option (SSD × List Nat)
  | [], s, batch => some (s, batch)
  | pg :: rest, s, batch =>
      (clean_data_pg_step spp ch lun blk now s batch pg).bind fun a =>
        clean_data_pgs spp ch lun blk now rest a.1 a.2

/-- C `clean_one_data_block` over block `(ch, lun, 0, blk)`. -/
def clean_one_data_block (spp : SSDParams) (s : SSD) (ch lun blk now : Nat) :
    Option SSD :=
  (clean_data_pgs spp ch lun blk now (List.range spp.pgs_per_blk) s []).map Prod.fst

/-- One iteration of the page loop of C `clean_one_trans_block`: valid
pages whose LPN is not data-mapped back to them are relocated with
`gc_translation_page_write`; a data-mapped one only warns ("translation
block contains data page"). -/
def clean_trans_pg_step (spp : SSDParams) (ch lun blk now : Nat) (s : SSD)
    (pg : Nat) : Option SSD :=
  let ppa := Ppa.addr ch lun 0 blk pg 0
  if s.pages (pageIdOf ppa) = PgStatus.valid then
    let s1 := gc_read_page spp s ppa now
    let lpn := get_rmap_ent spp s1 ppa
    if ppa2pgidx spp ppa ≠ ppa2pgidx spp (get_maptbl_ent s1 lpn) then
      gc_translation_page_write spp s1 ppa now
    else
      some s1
  else some s

/-- The page loop of C `clean_one_trans_block`. -/
def clean_trans_pgs (spp : SSDParams) (ch lun blk now : Nat) :
    List Nat → SSD → Option SSD
  | [], s => some s
  | pg :: rest, s =>
      (clean_trans_pg_step spp ch lun blk now s pg).bind fun s1 =>
        clean_trans_pgs spp ch lun blk now rest s1

/-- C `clean_one_trans_block` over block `(ch, lun, 0, blk)`. -/
def clean_one_trans_block (spp : SSDParams) (s : SSD) (ch lun blk now : Nat) :
    Option SSD :=
  clean_trans_pgs spp ch lun blk now (List.range spp.pgs_per_blk) s

/-- C `mark_line_free`: zero the line counters, type back to `NONE`, and
append the line to the free list. -/
def mark_line_free (s : SSD) (l : Nat) : SSD :=
  { s with lines := fupd s.lines l { ipc := 0, vpc := 0, typ := LineType.none },
           free_line_list := s.free_line_list ++ [l],
           free_line_cnt := s.free_line_cnt + 1 }

/-- The per-LUN body of the `do_gc` copy-back loop: clean the victim's
block on this LUN according to the victim's live `type` (an unexpected
type only warns), erase it (`mark_block_free` plus a GC erase command when
enabled) and latch `gc_endtime` on the LUN. -/
def do_gc_blk (spp : SSDParams) (victim now : Nat) (s : SSD) (ch lun : Nat) :
    Option SSD :=
  let ppa := Ppa.addr ch lun 0 victim 0 0
  let cleaned : Option SSD :=
    if (s.lines victim).typ = LineType.data then
      clean_one_data_block spp s ch lun victim now
    else if (s.lines victim).typ = LineType.trans then
      clean_one_trans_block spp s ch lun victim now
    else some s
  cleaned.map fun s1 =>
    let s2 := mark_block_free spp s1 ppa
    let s3 :=
      if spp.enable_gc_delay then
        (ssd_advance_status spp s2 ppa CmdOrigin.gc NandKind.erase 0 now).2
      else s2
    { s3 with lun_gc_endtime := fupd s3.lun_gc_endtime (ch, lun) (s3.lun_avail (ch, lun)) }

/-- The inner (`lun`) loop of `do_gc`. -/
def do_gc_luns (spp : SSDParams) (victim now ch : Nat) :
    List Nat → SSD → Option SSD
  | [], s => some s
  | lun :: rest, s =>
      (do_gc_blk spp victim now s ch lun).bind fun s1 =>
        do_gc_luns spp victim now ch rest s1

/-- The outer (`ch`) loop of `do_gc`. -/
def do_gc_chs (spp : SSDParams) (victim now : Nat) :
    List Nat → SSD → Option SSD
  | [], s => some s
  | ch :: rest, s =>
      (do_gc_luns spp victim now ch (List.range spp.luns_per_ch) s).bind fun s1 =>
        do_gc_chs spp victim now rest s1

/-- C `do_gc`: select a victim (result `-1` with the state untouched when
there is none), copy back every block of the line, then free the line. -/
def do_gc (spp : SSDParams) (s : SSD) (force : Bool) (now : Nat) :
    Option (Int × SSD) :=
  match select_victim_line spp s force with
  | (none, _) => some (-1, s)
  | (some victim, s1) =>
      (do_gc_chs spp victim now (List.range spp.nchs) s1).map fun s2 =>
        (0, mark_line_free s2 victim)

/-! ### Host request paths -/

/-- The request fields the FTL reads (`NvmeRequest`). -/
structure NvmeRequest where
  opcode : Nat
  slba : Nat
  nlb : Nat
  stime : Nat
deriving DecidableEq, Repr

/-- Modelled from the spec: NVMe opcode for a write (missing header). -/
def NVME_CMD_WRITE : Nat := 1

/-- Modelled from the spec: NVMe opcode for a read (missing header). -/
def NVME_CMD_READ : Nat := 2

/-- Modelled from the spec: NVMe opcode for dataset management (missing
header). -/
def NVME_CMD_DSM : Nat := 9

/-- C `start_lpn = lba / spp->secs_per_pg`. -/
def start_lpn (spp : SSDParams) (req : NvmeRequest) : Nat :=
  req.slba / spp.secs_per_pg

/-- C `end_lpn = (lba + nsecs - 1) / spp->secs_per_pg`. -/
def end_lpn (spp : SSDParams) (req : NvmeRequest) : Nat :=
  (req.slba + req.nlb - 1) / spp.secs_per_pg

/-- The LPNs visited by `for (lpn = start_lpn; lpn <= end_lpn; lpn++)`.
The `end_lpn >= tt_pgs` check in both request paths only logs `ftl_err`;
the loop bounds are not clamped. -/
def lpn_range (spp : SSDParams) (req : NvmeRequest) : List Nat :=
  List.range' (start_lpn spp req) (end_lpn spp req + 1 - start_lpn spp req)

/-- One iteration of the `ssd_read` loop: statistics, CMT hit (LRU
repositioning) or miss handling, silent skip of an unmapped/invalid
resolution, serialization of the data LUN behind the translation LUN on a
miss (the C dereferences the NULL `old_lun` — modelled `none` — when the
miss handler found no translation page yet the mapping is resolvable), and
the NAND read with running `maxlat`. -/
def ssd_read_lpn (spp : SSDParams) (req_stime now : Nat) (s : SSD)
    (maxlat lpn : Nat) : Option (SSD × Nat) :=
  let s := { s with stat_access_cnt := s.stat_access_cnt + 1 }
  match cmt_hit s lpn with
  | (some _, s1) =>
      let s1 := { s1 with stat_cmt_hit_cnt := s1.stat_cmt_hit_cnt + 1 }
      let ppa := get_maptbl_ent s1 lpn
      if !(mapped_ppa ppa) || !(valid_ppa spp ppa) then some (s1, maxlat)
      else
        let r := ssd_advance_status spp s1 ppa CmdOrigin.user NandKind.read req_stime now
        some (r.2, max r.1 maxlat)
  | (none, s1) =>
      let s1 := { s1 with stat_cmt_miss_cnt := s1.stat_cmt_miss_cnt + 1 }
      (process_translation_page_read spp s1 req_stime lpn now).bind fun pr =>
        let ppa := get_maptbl_ent pr.2 lpn
        if !(mapped_ppa ppa) || !(valid_ppa spp ppa) then some (pr.2, maxlat)
        else
          match pr.1 with
          | none => none
          | some ol =>
              let lid := lunIdOf ppa
              let raised := max (pr.2.lun_avail ol) (pr.2.lun_avail lid)
              let s3 := { pr.2 with lun_avail := fupd pr.2.lun_avail lid raised }
              let r := ssd_advance_status spp s3 ppa CmdOrigin.user NandKind.read req_stime now
              some (r.2, max r.1 maxlat)

/-- The LPN loop of C `ssd_read`. -/
def ssd_read_lpns (spp : SSDParams) (req_stime now : Nat) :
    List Nat → SSD → Nat → Option (SSD × Nat)
  | [], s, maxlat => some (s, maxlat)
  | lpn :: rest, s, maxlat =>
      (ssd_read_lpn spp req_stime now s maxlat lpn).bind fun a =>
        ssd_read_lpns spp req_stime now rest a.1 a.2

/-- C `ssd_read`: returns `maxlat` over the request's LPNs. -/
def ssd_read (spp : SSDParams) (s : SSD) (req : NvmeRequest) (now : Nat) :
    Option (Nat × SSD) :=
  (ssd_read_lpns spp req.stime now (lpn_range spp req) s 0).map fun a => (a.2, a.1)

/-- The foreground-GC loop at the head of C `ssd_write`:
`while (should_gc_high) { if (do_gc(force=true) == -1) break; }`, with
explicit fuel (`none` when the fuel runs out or a GC step aborts). -/
def ssd_write_gc_loop (spp : SSDParams) (now : Nat) :
    Nat → SSD → Option SSD
  | 0, _ => none
  | fuel + 1, s =>
      if should_gc_high s spp then
        (do_gc spp s true now).bind fun r =>
          if r.1 = -1 then some r.2 else ssd_write_gc_loop spp now fuel r.2
      else some s

/-- One iteration of the `ssd_write` loop: statistics and miss handling,
the post-handling hash lookup (whose failure the C only logs before
dereferencing NULL — modelled `none`), invalidation of the old page,
allocation at the data frontier, `maptbl`/CMT/`rmap` update, page
validation, frontier advance and the user NAND write with running
`maxlat`. -/
def ssd_write_lpn (spp : SSDParams) (req_stime now : Nat) (s : SSD)
    (maxlat lpn : Nat) : Option (SSD × Nat) :=
  let s := { s with stat_access_cnt := s.stat_access_cnt + 1 }
  let afterMiss : Option SSD :=
    match cmt_hit s lpn with
    | (some _, s1) => some { s1 with stat_cmt_hit_cnt := s1.stat_cmt_hit_cnt + 1 }
    | (none, s1) =>
        let s1 := { s1 with stat_cmt_miss_cnt := s1.stat_cmt_miss_cnt + 1 }
        (process_translation_page_write spp s1 req_stime lpn now).map Prod.snd
  afterMiss.bind fun s2 =>
    let ppa := get_maptbl_ent s2 lpn
    match find_hash_entry s2.cm lpn with
    | none => none
    | some idx =>
        let s3 :=
          if mapped_ppa ppa then
            set_rmap_ent spp (mark_page_invalid spp s2 ppa) INVALID_LPN ppa
          else s2
        let new_ppa := get_new_page s3
        let s4 := set_maptbl_ent s3 lpn new_ppa
        let e := s4.cm.entries idx
        let s5 := { s4 with cm := { s4.cm with entries :=
                     (fupd s4.cm.entries idx
                       { e with ppn := ppa2pgidx spp new_ppa, dirty := true }) } }
        let s6 := set_rmap_ent spp s5 lpn new_ppa
        let s7 := mark_page_valid s6 new_ppa
        (ssd_advance_write_pointer spp s7).map fun s8 =>
          let r := ssd_advance_status spp s8 new_ppa CmdOrigin.user NandKind.write
            req_stime now
          (r.2, max r.1 maxlat)

/-- The LPN loop of C `ssd_write`. -/
def ssd_write_lpns (spp : SSDParams) (req_stime now : Nat) :
    List Nat → SSD → Nat → Option (SSD × Nat)
  | [], s, maxlat => some (s, maxlat)
  | lpn :: rest, s, maxlat =>
      (ssd_write_lpn spp req_stime now s maxlat lpn).bind fun a =>
        ssd_write_lpns spp req_stime now rest a.1 a.2

/-- C `ssd_write`: foreground GC until the high watermark clears or no
victim remains, then the per-LPN write loop. -/
def ssd_write (spp : SSDParams) (s : SSD) (req : NvmeRequest) (now fuel : Nat) :
    Option (Nat × SSD) :=
  (ssd_write_gc_loop spp now fuel s).bind fun s1 =>
    (ssd_write_lpns spp req.stime now (lpn_range spp req) s1 0).map fun a => (a.2, a.1)

/-- The opcode dispatch of C `ftl_thread`.  The `lat` argument is the
worker's local `lat` variable: `WRITE`/`READ` overwrite it with the
request latency, `DSM` sets it to `0`, and any other opcode leaves it
unchanged (the `default:` arm of the switch is an empty statement). -/
def ftl_dispatch (spp : SSDParams) (s : SSD) (lat : Nat) (req : NvmeRequest)
    (now fuel : Nat) : Option (SSD × Nat) :=
  if req.opcode = NVME_CMD_WRITE then
    (ssd_write spp s req now fuel).map fun r => (r.2, r.1)
  else if req.opcode = NVME_CMD_READ then
    (ssd_read spp s req now).map fun r => (r.2, r.1)
  else if req.opcode = NVME_CMD_DSM then some (s, 0)
  else some (s, lat)

/-- One `ftl_thread` loop body for one dequeued request: dispatch, store
`req->reqlat = lat` (returned as the last component), then the background
GC check `if (should_gc) do_gc(false)`. -/
def ftl_thread_step (spp : SSDParams) (now fuel : Nat) (s : SSD) (lat : Nat)
    (req : NvmeRequest) : Option (SSD × Nat × Nat) :=
  (ftl_dispatch spp s lat req now fuel).bind fun a =>
    let bg : Option SSD :=
      if should_gc a.1 spp then (do_gc spp a.1 false now).map Prod.snd
      else some a.1
    bg.map fun s2 => (s2, a.2, a.2)

/-- A run of the `ftl_thread` worker over a request sequence, starting
from the C local `uint64_t lat = 0`; yields the final state, the final
`lat` variable, and the `reqlat` written to each request in order. -/
def ftl_thread_run (spp : SSDParams) (now fuel : Nat) :
    List NvmeRequest → SSD → Nat → Option (SSD × Nat × List Nat)
  | [], s, lat => some (s, lat, [])
  | req :: rest, s, lat =>
      (ftl_thread_step spp now fuel s lat req).bind fun a =>
        (ftl_thread_run spp now fuel rest a.1 a.2.1).map fun b =>
          (b.1, b.2.1, a.2.2 :: b.2.2)

/-! ### Device construction (`ssd_init`) -/

/-- C `ssd_init_lines`: all lines zeroed (type `NONE` from `g_malloc0`)
and placed on the free list in index order. -/
def init_lines_free_list (spp : SSDParams) : List Nat := List.range spp.tt_lines

/-- C `ssd_init_cmt`: zeroed entries (CLEAN, `INVALID_LPN`,
`UNMAPPED_PPA`), all on the free list in index order, empty hash. -/
def ssd_init_cmt (spp : SSDParams) : CmtMgmt where
  tt_entries := spp.tt_cmt_size
  free_cmt_entry_cnt := (spp.tt_cmt_size : Int)
  used_cmt_entry_cnt := 0
  entries := fun _ => { lpn := INVALID_LPN, ppn := UNMAPPED_PPA_NUM, dirty := false }
  free_list := List.range spp.tt_cmt_size
  used_list := []
  ht := fun _ => []

/-- C `ssd_init`: maps all-unmapped, NAND all-free, every line free, then
`ssd_init_write_pointer` and `ssd_init_trans_write_pointer` take the first
two free lines as the `DATA` and `TRANS` frontiers. -/
def ssd_init (spp : SSDParams) : SSD where
  maptbl := fun _ => Ppa.unmapped
  rmap := fun _ => INVALID_LPN
  gtd := fun _ => Ppa.unmapped
  pages := fun _ => PgStatus.free
  blk_ipc := fun _ => 0
  blk_vpc := fun _ => 0
  blk_erase_cnt := fun _ => 0
  lines := fun l =>
    if l = 0 then { ipc := 0, vpc := 0, typ := LineType.data }
    else if l = 1 then { ipc := 0, vpc := 0, typ := LineType.trans }
    else { ipc := 0, vpc := 0, typ := LineType.none }
  free_line_list := (init_lines_free_list spp).drop 2
  victim_pq := []
  full_line_list := []
  free_line_cnt := (spp.tt_lines : Int) - 2
  victim_line_cnt := 0
  full_line_cnt := 0
  wp := { curline := 0, ch := 0, lun := 0, pg := 0, blk := 0, pl := 0 }
  twp := { curline := 1, ch := 0, lun := 0, pg := 0, blk := 1, pl := 0 }
  cm := ssd_init_cmt spp
  lun_avail := fun _ => 0
  lun_gc_endtime := fun _ => 0
  ch_avail := fun _ => 0
  stat_access_cnt := 0
  stat_cmt_hit_cnt := 0
  stat_cmt_miss_cnt := 0
  trace := []

/-! ### Concrete instances for witnesses -/

/-- A four-line toy geometry for concrete runs: one channel, one LUN, one
plane, four blocks of two pages, one sector per page, two map entries per
translation page. -/
def sppW : SSDParams where
  secs_per_pg := 1
  pgs_per_blk := 2
  blks_per_pl := 4
  pls_per_lun := 1
  luns_per_ch := 1
  nchs := 1
  pg_rd_lat := 10
  pg_wr_lat := 100
  blk_er_lat := 1000
  gc_thres_lines := 1
  gc_thres_lines_high := 1
  enable_gc_delay := true
  ents_per_pg := 2

/-- A consistent mid-life device state for `sppW`: line 0 is the data
frontier (still empty), line 1 the translation frontier holding the live
translation page of `tvpn 0` in its page 0 (`twp` past it), line 2 a data
line in the victim queue with LPN 0 valid in its page 0 and its page 1
invalidated, and line 3 free. -/
def gcS : SSD where
  maptbl := fupd (fun _ => Ppa.unmapped) 0 (Ppa.addr 0 0 0 2 0 0)
  rmap := fun i => if i = 4 then 0 else if i = 2 then 0 else INVALID_LPN
  gtd := fupd (fun _ => Ppa.unmapped) 0 (Ppa.addr 0 0 0 1 0 0)
  pages := fun pid =>
    if pid = (0, 0, 0, 1, 0) then PgStatus.valid
    else if pid = (0, 0, 0, 2, 0) then PgStatus.valid
    else if pid = (0, 0, 0, 2, 1) then PgStatus.invalid
    else PgStatus.free
  blk_ipc := fun b => if b = (0, 0, 0, 2) then 1 else 0
  blk_vpc := fun b => if b = (0, 0, 0, 1) then 1 else if b = (0, 0, 0, 2) then 1 else 0
  blk_erase_cnt := fun _ => 0
  lines := fun l =>
    if l = 0 then { ipc := 0, vpc := 0, typ := LineType.data }
    else if l = 1 then { ipc := 0, vpc := 1, typ := LineType.trans }
    else if l = 2 then { ipc := 1, vpc := 1, typ := LineType.data }
    else { ipc := 0, vpc := 0, typ := LineType.none }
  free_line_list := [3]
  victim_pq := [2]
  full_line_list := []
  free_line_cnt := 1
  victim_line_cnt := 1
  full_line_cnt := 0
  wp := { curline := 0, ch := 0, lun := 0, pg := 0, blk := 0, pl := 0 }
  twp := { curline := 1, ch := 0, lun := 0, pg := 1, blk := 1, pl := 0 }
  cm := { tt_entries := 2, free_cmt_entry_cnt := 2, used_cmt_entry_cnt := 0,
          entries := fun _ => { lpn := INVALID_LPN, ppn := UNMAPPED_PPA_NUM, dirty := false },
          free_list := [0, 1], used_list := [], ht := fun _ => [] }
  lun_avail := fun _ => 0
  lun_gc_endtime := fun _ => 0
  ch_avail := fun _ => 0
  stat_access_cnt := 0
  stat_cmt_hit_cnt := 0
  stat_cmt_miss_cnt := 0
  trace := []

/-! ### Concrete witness states -/

/-- `gcS` with one dirty CMT entry: slot 0 caches LPN 1 (dirty), sitting
alone on the LRU list; its translation page `tvpn 0` is live in the GTD. -/
def evS : SSD :=
  { gcS with cm :=
      { tt_entries := 2, free_cmt_entry_cnt := 1, used_cmt_entry_cnt := 1,
        entries := fun i =>
          if i = 0 then { lpn := 1, ppn := 4, dirty := true }
          else { lpn := INVALID_LPN, ppn := UNMAPPED_PPA_NUM, dirty := false },
        free_list := [1], used_list := [0],
        ht := fun b => if b = 1 then [0] else [] } }

/-- The state after evicting the dirty entry from `evS`. -/
def evS2 : SSD := (evict_entry_from_cmt sppW evS 5).getD evS

/-- The write request and outcome used to witness the foreground-GC path. -/
def wReq : NvmeRequest := { opcode := 1, slba := 0, nlb := 1, stime := 7 }

/-- The concrete outcome of `ssd_write` on `gcS` for `wReq`. -/
def wRes : Nat × SSD := (ssd_write sppW gcS wReq 5 4).getD (0, gcS)

/-- The state the foreground-GC loop reaches on `gcS`. -/
def wS1 : SSD := (ssd_write_gc_loop sppW 5 4 gcS).getD gcS

/-! ### The spec's map invariants -/

/-- Invariant (1) of the spec's map invariants: every mapped LPN's address
is geometrically valid, its page has status `PG_VALID`, and the reverse map
points back to that LPN. -/
def data_map_inv (spp : SSDParams) (s : SSD) : Prop :=
  ∀ lpn < spp.tt_pgs, mapped_ppa (s.maptbl lpn) = true →
    valid_ppa spp (s.maptbl lpn) = true ∧
    s.pages (pageIdOf (s.maptbl lpn)) = PgStatus.valid ∧
    s.rmap (ppa2pgidx spp (s.maptbl lpn)) = lpn

instance (spp : SSDParams) (s : SSD) : Decidable (data_map_inv spp s) := by
  unfold data_map_inv
  infer_instance

/-- The per-page body of invariant (2): a page whose reverse-map entry is
not `INVALID_LPN` has status `PG_VALID` and is pointed back to by `maptbl`
(data pages) or by the GTD (translation pages). -/
def rmap_pg_ok (spp : SSDParams) (s : SSD) (ch lun pl blk pg : Nat) : Prop :=
  s.rmap (ppa2pgidx spp (Ppa.addr ch lun pl blk pg 0)) ≠ INVALID_LPN →
    s.pages (ch, lun, pl, blk, pg) = PgStatus.valid ∧
    (ppa2pgidx spp (s.maptbl (s.rmap (ppa2pgidx spp (Ppa.addr ch lun pl blk pg 0)))) =
       ppa2pgidx spp (Ppa.addr ch lun pl blk pg 0) ∨
     ppa2pgidx spp (s.gtd (s.rmap (ppa2pgidx spp (Ppa.addr ch lun pl blk pg 0)))) =
       ppa2pgidx spp (Ppa.addr ch lun pl blk pg 0))

instance (spp : SSDParams) (s : SSD) (ch lun pl blk pg : Nat) :
    Decidable (rmap_pg_ok spp s ch lun pl blk pg) := by
  unfold rmap_pg_ok
  infer_instance

/-- Invariant (2) of the spec's map invariants, over every geometrically
valid page. -/
def rmap_map_inv (spp : SSDParams) (s : SSD) : Prop :=
  ∀ ch < spp.nchs, ∀ lun < spp.luns_per_ch, ∀ pl < spp.pls_per_lun,
    ∀ blk < spp.blks_per_pl, ∀ pg < spp.pgs_per_blk,
      rmap_pg_ok spp s ch lun pl blk pg

instance (spp : SSDParams) (s : SSD) : Decidable (rmap_map_inv spp s) := by
  unfold rmap_map_inv
  infer_instance

/-- Invariant (3) of the spec's map invariants: each line's `vpc` and `ipc`
equal the sums of its blocks' valid/invalid page counters. -/
def line_cnt_inv (spp : SSDParams) (s : SSD) : Prop :=
  ∀ l < spp.tt_lines,
    (s.lines l).vpc = ((List.range spp.nchs).map (fun ch =>
      ((List.range spp.luns_per_ch).map (fun lun =>
        ((List.range spp.pls_per_lun).map (fun pl =>
          s.blk_vpc (ch, lun, pl, l))).sum)).sum)).sum ∧
    (s.lines l).ipc = ((List.range spp.nchs).map (fun ch =>
      ((List.range spp.luns_per_ch).map (fun lun =>
        ((List.range spp.pls_per_lun).map (fun pl =>
          s.blk_ipc (ch, lun, pl, l))).sum)).sum)).sum

instance (spp : SSDParams) (s : SSD) : Decidable (line_cnt_inv spp s) := by
  unfold line_cnt_inv
  infer_instance

/-- The conjunction of the three map invariants the claim asserts GC
preserves. -/
def MapInvariants (spp : SSDParams) (s : SSD) : Prop :=
  data_map_inv spp s ∧ rmap_map_inv spp s ∧ line_cnt_inv spp s

instance (spp : SSDParams) (s : SSD) : Decidable (MapInvariants spp s) := by
  unfold MapInvariants
  infer_instance

/-- The result of one GC cycle on `gcS` (it selects victim line 2). -/
def gcR : Int × SSD := (do_gc sppW gcS false 5).getD (-1, gcS)

/-! ## Basic lemmas about the heap -/

theorem heapInv_root_le (pri : Nat → Int) (q : List Nat) (hq : HeapInv pri q) :
    ∀ j, j < q.length → pri (q.getD 0 0) ≤ pri (q.getD j 0) := by
  intro j
  induction j using Nat.strong_induction_on with
  | _ j ih =>
    intro hj
    rcases Nat.eq_zero_or_pos j with h0 | hpos
    · subst h0; exact le_refl _
    · have hp : (j - 1) / 2 < j := by omega
      have hchild : j = 2 * ((j - 1) / 2) + 1 ∨ j = 2 * ((j - 1) / 2) + 2 := by omega
      have hple : pri (q.getD ((j - 1) / 2) 0) ≤ pri (q.getD j 0) := by
        have hfalse := hq ((j - 1) / 2) (lt_trans hp hj) j hj hchild
        simp only [victim_line_cmp_pri, decide_eq_false_iff_not, not_lt] at hfalse
        exact hfalse
      exact le_trans (ih _ hp (lt_trans hp hj)) hple

/-! ## Claim C3: the NAND timing model -/

/-- C3: for every NAND read, write or erase issued through
`ssd_advance_status` at start time `t0` (a submitted `stime` of `0`
standing for the current wall-clock reading `now`) on a LUN whose
availability clock is `T`, the clock becomes `max t0 T + L` with `L` the
per-operation latency (`pg_rd_lat` for reads, `pg_wr_lat` for writes,
`blk_er_lat` for erases), the returned latency is exactly the updated
clock minus `t0`, and no channel-transfer time is added: the channel
clocks and every other LUN clock are untouched. -/
theorem ssd_advance_status_timing (spp : SSDParams) (s : SSD) (ppa : Ppa)
    (origin : CmdOrigin) (kind : NandKind) (stime now : Nat) :
    (ssd_advance_status spp s ppa origin kind stime now).2.lun_avail (lunIdOf ppa) =
        max (if stime = 0 then now else stime) (s.lun_avail (lunIdOf ppa)) +
          (match kind with
           | NandKind.read => spp.pg_rd_lat
           | NandKind.write => spp.pg_wr_lat
           | NandKind.erase => spp.blk_er_lat) ∧
    (ssd_advance_status spp s ppa origin kind stime now).1 =
        (ssd_advance_status spp s ppa origin kind stime now).2.lun_avail (lunIdOf ppa) -
          (if stime = 0 then now else stime) ∧
    (ssd_advance_status spp s ppa origin kind stime now).2.ch_avail = s.ch_avail ∧
    ∀ l : LunId, l ≠ lunIdOf ppa →
      (ssd_advance_status spp s ppa origin kind stime now).2.lun_avail l = s.lun_avail l := by
  cases kind <;> refine ⟨?_, ?_, ?_, ?_⟩ <;>
    first
      | (intro l hl; simp [ssd_advance_status, fupd, hl])
      | simp [ssd_advance_status, fupd, Nat.max_comm]

/-! ## Claim C4: victim queue priority -/

/-- C4: lines pushed into the victim priority queue are keyed by `vpc`
(`victim_line_get_pri`) under the comparator `victim_line_cmp_pri`, and
smaller `vpc` means higher priority: whenever the queue is non-empty and
in the heap shape the pqueue operations maintain, the line surfaced by
`pqueue_peek` — the one `select_victim_line` consumes — has the minimal
`vpc` among all queued lines. -/
theorem select_victim_line_min_vpc (spp : SSDParams) (s : SSD) (force : Bool)
    (v : Nat)
    (hq : HeapInv (victim_line_get_pri s.lines) s.victim_pq)
    (hsel : (select_victim_line spp s force).1 = some v) :
    ∀ i ∈ s.victim_pq, (s.lines v).vpc ≤ (s.lines i).vpc := by
  intro i hi
  have hv : s.victim_pq.getD 0 0 = v := by
    have hpkv : pqueue_peek s.victim_pq = some v := by
      unfold select_victim_line at hsel
      cases hpk : pqueue_peek s.victim_pq with
      | none => simp [hpk] at hsel
      | some w =>
          simp only [hpk] at hsel
          split at hsel
          · exact Option.noConfusion hsel
          · obtain rfl : w = v := Option.some.inj hsel
            rfl
    unfold pqueue_peek at hpkv
    cases hql : s.victim_pq with
    | nil => rw [hql] at hpkv; simp at hpkv
    | cons a t => rw [hql] at hpkv; simp at hpkv; simp [hpkv]
  obtain ⟨j, hjlen, hji⟩ := List.getElem_of_mem hi
  have h1 := heapInv_root_le (victim_line_get_pri s.lines) s.victim_pq hq j hjlen
  rw [hv, List.getD_eq_getElem s.victim_pq 0 hjlen, hji] at h1
  exact h1

/-- Witness for C4: on the concrete state `gcS` the heap invariant holds,
`select_victim_line` surfaces line 2, and that line has minimal `vpc`. -/
theorem select_victim_line_min_vpc_witness :
    HeapInv (victim_line_get_pri gcS.lines) gcS.victim_pq ∧
    (select_victim_line sppW gcS true).1 = some 2 ∧
    ∀ i ∈ gcS.victim_pq, (gcS.lines 2).vpc ≤ (gcS.lines i).vpc :=
  ⟨by decide, by decide,
   select_victim_line_min_vpc sppW gcS true 2 (by decide) (by decide)⟩

/-! ## Frame lemmas: which state components each primitive leaves alone -/

@[simp] theorem ssd_advance_status_snd_cm (spp : SSDParams) (s : SSD) (ppa : Ppa)
    (o : CmdOrigin) (k : NandKind) (st now : Nat) :
    (ssd_advance_status spp s ppa o k st now).2.cm = s.cm := by
  cases k <;> rfl

@[simp] theorem mark_page_invalid_cm (spp : SSDParams) (s : SSD) (ppa : Ppa) :
    (mark_page_invalid spp s ppa).cm = s.cm := by
  unfold mark_page_invalid
  dsimp only
  split <;> split <;> rfl

@[simp] theorem mark_page_valid_cm (s : SSD) (ppa : Ppa) :
    (mark_page_valid s ppa).cm = s.cm := rfl

@[simp] theorem set_maptbl_ent_cm (s : SSD) (lpn : Nat) (ppa : Ppa) :
    (set_maptbl_ent s lpn ppa).cm = s.cm := rfl

@[simp] theorem set_gtd_ent_cm (s : SSD) (tvpn : Nat) (ppa : Ppa) :
    (set_gtd_ent s tvpn ppa).cm = s.cm := rfl

@[simp] theorem set_rmap_ent_cm (spp : SSDParams) (s : SSD) (lpn : Nat) (ppa : Ppa) :
    (set_rmap_ent spp s lpn ppa).cm = s.cm := rfl

@[simp] theorem retire_line_cm (spp : SSDParams) (s : SSD) (cur : Nat) :
    (retire_line spp s cur).cm = s.cm := by
  unfold retire_line
  split <;> rfl

theorem get_next_free_line_cm (s : SSD) (l : Nat) (s' : SSD)
    (h : get_next_free_line s = some (l, s')) : s'.cm = s.cm := by
  unfold get_next_free_line at h
  split at h
  · exact Option.noConfusion h
  · cases h; rfl

theorem ssd_advance_write_pointer_cm (spp : SSDParams) (s s' : SSD)
    (h : ssd_advance_write_pointer spp s = some s') : s'.cm = s.cm := by
  unfold ssd_advance_write_pointer at h
  repeat' split at h
  all_goals try exact Option.noConfusion h
  all_goals try (cases h; rfl)
  next pr newl s2 heq =>
    cases h
    have := get_next_free_line_cm _ newl s2 heq
    simpa using this

theorem ssd_advance_trans_write_pointer_cm (spp : SSDParams) (s s' : SSD)
    (h : ssd_advance_trans_write_pointer spp s = some s') : s'.cm = s.cm := by
  unfold ssd_advance_trans_write_pointer at h
  repeat' split at h
  all_goals try exact Option.noConfusion h
  all_goals try (cases h; rfl)
  next pr newl s2 heq =>
    cases h
    have := get_next_free_line_cm _ newl s2 heq
    simpa using this

theorem translation_page_new_write_cm (spp : SSDParams) (s : SSD) (tvpn now : Nat)
    (p : Nat × SSD) (h : translation_page_new_write spp s tvpn now = some p) :
    p.2.cm = s.cm := by
  unfold translation_page_new_write at h
  rw [Option.map_eq_some'] at h
  obtain ⟨s5, hadv, hp⟩ := h
  have h5 := ssd_advance_trans_write_pointer_cm spp _ s5 hadv
  simp only [mark_page_valid_cm, set_rmap_ent_cm, set_gtd_ent_cm] at h5
  rw [← hp]
  simpa using h5

theorem translation_page_write_cm (spp : SSDParams) (s : SSD) (old_ppa : Ppa)
    (now : Nat) (p : Nat × SSD) (h : translation_page_write spp s old_ppa now = some p) :
    p.2.cm = s.cm := by
  unfold translation_page_write at h
  rw [Option.map_eq_some'] at h
  obtain ⟨s5, hadv, hp⟩ := h
  have h5 := ssd_advance_trans_write_pointer_cm spp _ s5 hadv
  simp only [mark_page_valid_cm, set_rmap_ent_cm, set_gtd_ent_cm] at h5
  rw [← hp]
  by_cases hm : mapped_ppa old_ppa <;> simp [hm] at h5 <;> simpa using h5

theorem evict_writeback_cm (spp : SSDParams) (s0 : SSD) (lpn : Nat) (dirty : Bool)
    (now : Nat) (s2 : SSD) (h : evict_writeback spp s0 lpn dirty now = some s2) :
    s2.cm = s0.cm := by
  unfold evict_writeback at h
  dsimp only at h
  split at h
  · split at h
    · rw [Option.map_eq_some'] at h
      obtain ⟨p, hp, hps⟩ := h
      rw [← hps]
      exact translation_page_new_write_cm spp _ _ _ p hp
    · rw [Option.map_eq_some'] at h
      obtain ⟨p, hp, hps⟩ := h
      rw [← hps]
      have := translation_page_write_cm spp _ _ _ p hp
      simpa using this
  · cases h; rfl

/-! ## Claim C9: the CMT counter invariant -/

/-- C9: `used_cmt_entry_cnt + free_cmt_entry_cnt = tt_entries` holds after
`ssd_init_cmt` (as part of `ssd_init`) and is preserved by every
successful `insert_entry_to_cmt` and every successful
`evict_entry_from_cmt` (a dirty eviction's translation write-back never
touches the counters), hence holds between requests. -/
theorem cmt_counter_invariant (spp : SSDParams) :
    ((ssd_init spp).cm.used_cmt_entry_cnt + (ssd_init spp).cm.free_cmt_entry_cnt =
        ((ssd_init spp).cm.tt_entries : Int)) ∧
    (∀ s s' : SSD, ∀ lpn ppn : Nat,
        s.cm.used_cmt_entry_cnt + s.cm.free_cmt_entry_cnt = (s.cm.tt_entries : Int) →
        insert_entry_to_cmt s lpn ppn = some s' →
        s'.cm.used_cmt_entry_cnt + s'.cm.free_cmt_entry_cnt = (s'.cm.tt_entries : Int)) ∧
    (∀ s s' : SSD, ∀ now : Nat,
        s.cm.used_cmt_entry_cnt + s.cm.free_cmt_entry_cnt = (s.cm.tt_entries : Int) →
        evict_entry_from_cmt spp s now = some s' →
        s'.cm.used_cmt_entry_cnt + s'.cm.free_cmt_entry_cnt = (s'.cm.tt_entries : Int)) := by
  refine ⟨by simp [ssd_init, ssd_init_cmt], ?_, ?_⟩
  · intro s s' lpn ppn hsum hins
    unfold insert_entry_to_cmt at hins
    cases hfl : s.cm.free_list with
    | nil => rw [hfl] at hins; exact Option.noConfusion hins
    | cons idx rest =>
        rw [hfl] at hins
        cases hins
        simp only [insert_cmt_hashtable]
        omega
  · intro s s' now hsum hev
    unfold evict_entry_from_cmt at hev
    cases hlast : s.cm.used_list.getLast? with
    | none => rw [hlast] at hev; exact Option.noConfusion hev
    | some idx =>
        rw [hlast] at hev
        rw [Option.bind_eq_some] at hev
        obtain ⟨s2, hstep, hfin⟩ := hev
        have hcm2 := evict_writeback_cm spp _ _ _ now s2 hstep
        cases hfin
        simp only [delete_cmt_hashnode, hcm2]
        omega

/-- Witness for C9: at the freshly built toy device the counter equation
holds, and one concrete successful insertion and eviction preserve it. -/
theorem cmt_counter_invariant_witness :
    ((ssd_init sppW).cm.used_cmt_entry_cnt + (ssd_init sppW).cm.free_cmt_entry_cnt =
        ((ssd_init sppW).cm.tt_entries : Int)) ∧
    (∀ s', insert_entry_to_cmt (ssd_init sppW) 0 0 = some s' →
        s'.cm.used_cmt_entry_cnt + s'.cm.free_cmt_entry_cnt = (s'.cm.tt_entries : Int)) :=
  ⟨(cmt_counter_invariant sppW).1,
   fun s' h => (cmt_counter_invariant sppW).2.1 (ssd_init sppW) s' 0 0
     (cmt_counter_invariant sppW).1 h⟩

/-! ## Claim C7: DSM and unknown opcodes -/

/-- Counterexample to C7 as stated: the `default:` arm of the
`ftl_thread` switch is an empty statement, so an unknown opcode leaves the
worker's local `lat` variable at its previous value.  After a WRITE of one
page (latency 100 on the toy geometry), an immediately following request
with unknown opcode 77 reports `reqlat = 100`, not 0. -/
theorem ftl_unknown_opcode_stale_lat :
    (ftl_thread_run sppW 5 1
        [{ opcode := NVME_CMD_WRITE, slba := 0, nlb := 1, stime := 7 },
         { opcode := 77, slba := 0, nlb := 1, stime := 7 }]
        (ssd_init sppW) 0).map (fun r => r.2.2) = some [100, 100] := by decide

/-- C7 (amended): a DSM request always stores `reqlat = 0`; a request
whose opcode is none of WRITE, READ, DSM stores the worker's previous
`lat` value unchanged — the latency of the last WRITE/READ/DSM processed
on that worker (0 if none) — because the switch's `default:` arm is
empty. -/
theorem ftl_reqlat_dsm_and_unknown (spp : SSDParams) (s : SSD) (lat : Nat)
    (req : NvmeRequest) (now fuel : Nat) (r : SSD × Nat × Nat)
    (hstep : ftl_thread_step spp now fuel s lat req = some r) :
    (req.opcode = NVME_CMD_DSM → r.2.2 = 0) ∧
    (req.opcode ≠ NVME_CMD_WRITE → req.opcode ≠ NVME_CMD_READ →
      req.opcode ≠ NVME_CMD_DSM → r.2.2 = lat) := by
  constructor
  · intro hop
    unfold ftl_thread_step ftl_dispatch at hstep
    rw [hop] at hstep
    simp only [NVME_CMD_DSM, NVME_CMD_WRITE, NVME_CMD_READ] at hstep
    norm_num at hstep
    obtain ⟨a, -, har⟩ := hstep
    subst har
    rfl
  · intro hw hr hd
    unfold ftl_thread_step ftl_dispatch at hstep
    simp only [hw, hr, hd] at hstep
    norm_num at hstep
    obtain ⟨a, -, har⟩ := hstep
    subst har
    rfl

/-- Witness for C7 (amended): concrete instantiations of both arms — a
DSM request reports 0, and opcode 77 arriving with `lat = 100` reports
100. -/
theorem ftl_reqlat_dsm_and_unknown_witness :
    ((ftl_thread_step sppW 5 1 (ssd_init sppW) 100
        { opcode := 77, slba := 0, nlb := 1, stime := 7 }).map (fun r => r.2.2) =
      some 100) ∧
    ((ftl_thread_step sppW 5 1 (ssd_init sppW) 100
        { opcode := NVME_CMD_DSM, slba := 0, nlb := 1, stime := 7 }).map (fun r => r.2.2) =
      some 0) :=
  ⟨congrArg some ((ftl_reqlat_dsm_and_unknown sppW (ssd_init sppW) 100
      { opcode := 77, slba := 0, nlb := 1, stime := 7 } 5 1
      (ssd_init sppW, 100, 100) (by rfl)).2 (by decide) (by decide) (by decide)),
   congrArg some ((ftl_reqlat_dsm_and_unknown sppW (ssd_init sppW) 100
      { opcode := NVME_CMD_DSM, slba := 0, nlb := 1, stime := 7 } 5 1
      (ssd_init sppW, 0, 0) (by rfl)).1 (by decide))⟩

/-! ## Claim C6: requests beyond `tt_pgs` -/

/-- Counterexample to C6 as stated: the `end_lpn >= tt_pgs` check only
logs; the per-LPN loop is not clamped.  On the toy geometry
(`tt_pgs = 8`) a write of LPN 8 goes through the whole write path and
stores a mapping at `maptbl[8]` — an access at an index `≥ tt_pgs` (an
out-of-bounds array write in the C program). -/
theorem ssd_write_out_of_range_access :
    sppW.tt_pgs = 8 ∧
    (ssd_write sppW (ssd_init sppW)
        { opcode := NVME_CMD_WRITE, slba := 8, nlb := 1, stime := 7 } 5 1).map
      (fun r => mapped_ppa (r.2.maptbl 8)) = some true := by decide

set_option maxHeartbeats 1000000 in
/-- C6 (amended): when `end_lpn >= tt_pgs` the FTL logs an error but does
NOT clamp: it processes every LPN of the request as is.  In particular,
writing the single out-of-range page `lpn >= tt_pgs` on a pristine device
runs the full write path for that LPN and stores a mapping at
`maptbl[lpn]` — an access at an index `>= tt_pgs` (out of bounds in C). -/
theorem ssd_write_no_clamping (spp : SSDParams) (lpn stime now fuel : Nat)
    (hsec : 0 < spp.secs_per_pg) (hcmt : 0 < spp.tt_cmt_size)
    (hnchs : 1 < spp.nchs)
    (hhigh : should_gc_high (ssd_init spp) spp = false)
    (hlpn : spp.tt_pgs ≤ lpn) :
    (ssd_write spp (ssd_init spp)
        { opcode := NVME_CMD_WRITE, slba := lpn * spp.secs_per_pg, nlb := 1,
          stime := stime } now (fuel + 1)).map
      (fun r => mapped_ppa (r.2.maptbl lpn)) = some true := by
  have hrange : lpn_range spp
      { opcode := NVME_CMD_WRITE, slba := lpn * spp.secs_per_pg, nlb := 1,
        stime := stime } = [lpn] := by
    unfold lpn_range start_lpn end_lpn
    simp only
    rw [Nat.add_sub_cancel, Nat.mul_div_cancel _ hsec]
    simp
  obtain ⟨m, hm⟩ : ∃ m, spp.tt_cmt_size = m + 1 := ⟨spp.tt_cmt_size - 1, by omega⟩
  have hne : ¬ (0 + 1 = spp.nchs) := by omega
  unfold ssd_write
  rw [show ssd_write_gc_loop spp now (fuel + 1) (ssd_init spp) = some (ssd_init spp) by
    unfold ssd_write_gc_loop; rw [hhigh]; rfl]
  rw [Option.some_bind, hrange]
  unfold ssd_write_lpns ssd_write_lpn
  simp only [cmt_hit, find_hash_entry, ssd_init, ssd_init_cmt, List.find?_nil,
    process_translation_page_write, get_gtd_ent, mapped_ppa, Bool.not_false,
    Bool.true_or, if_true, cmt_fill, hm, insert_entry_to_cmt,
    List.range_succ_eq_map, insert_cmt_hashtable, get_maptbl_ent,
    ssd_advance_write_pointer, hne, if_false, Option.some_bind, Option.map_some']
  norm_num
  simp only [find_hash_entry, fupd, cmt_hash, if_pos rfl, List.find?_cons,
    beq_self_eq_true, if_true, get_new_page, set_maptbl_ent, mark_page_valid,
    set_rmap_ent, Option.some_bind, Option.map_some', pageIdOf, blkIdOf, lineIdOf]
  simp only [hne, if_false, Option.map_some', ssd_advance_status]
  simp [mapped_ppa, fupd, ssd_write_lpns]

/-- Witness for C6 (amended) on the real `ssd_init_params` geometry
(`tt_pgs = 4194304`): writing LPN 4194304 maps `maptbl[4194304]`. -/
theorem ssd_write_no_clamping_witness :
    (0 < ssd_init_params.secs_per_pg ∧ 0 < ssd_init_params.tt_cmt_size ∧
      1 < ssd_init_params.nchs ∧
      should_gc_high (ssd_init ssd_init_params) ssd_init_params = false ∧
      ssd_init_params.tt_pgs ≤ 4194304) ∧
    (ssd_write ssd_init_params (ssd_init ssd_init_params)
        { opcode := NVME_CMD_WRITE, slba := 4194304 * ssd_init_params.secs_per_pg,
          nlb := 1, stime := 7 } 5 (0 + 1)).map
      (fun r => mapped_ppa (r.2.maptbl 4194304)) = some true :=
  ⟨⟨by decide, by decide, by decide, by decide, by decide⟩,
   ssd_write_no_clamping ssd_init_params 4194304 7 5 0 (by decide) (by decide)
     (by decide) (by decide) (by decide)⟩

/-! ## Claim C10: the read path never writes the forward map -/

@[simp] theorem ssd_advance_status_snd_maptbl (spp : SSDParams) (s : SSD) (ppa : Ppa)
    (o : CmdOrigin) (k : NandKind) (st now : Nat) :
    (ssd_advance_status spp s ppa o k st now).2.maptbl = s.maptbl := by
  cases k <;> rfl

@[simp] theorem mark_page_invalid_maptbl (spp : SSDParams) (s : SSD) (ppa : Ppa) :
    (mark_page_invalid spp s ppa).maptbl = s.maptbl := by
  unfold mark_page_invalid
  dsimp only
  split <;> split <;> rfl

@[simp] theorem mark_page_valid_maptbl (s : SSD) (ppa : Ppa) :
    (mark_page_valid s ppa).maptbl = s.maptbl := rfl

@[simp] theorem set_gtd_ent_maptbl (s : SSD) (tvpn : Nat) (ppa : Ppa) :
    (set_gtd_ent s tvpn ppa).maptbl = s.maptbl := rfl

@[simp] theorem set_rmap_ent_maptbl (spp : SSDParams) (s : SSD) (lpn : Nat) (ppa : Ppa) :
    (set_rmap_ent spp s lpn ppa).maptbl = s.maptbl := rfl

@[simp] theorem retire_line_maptbl (spp : SSDParams) (s : SSD) (cur : Nat) :
    (retire_line spp s cur).maptbl = s.maptbl := by
  unfold retire_line
  split <;> rfl

theorem get_next_free_line_maptbl (s : SSD) (l : Nat) (s' : SSD)
    (h : get_next_free_line s = some (l, s')) : s'.maptbl = s.maptbl := by
  unfold get_next_free_line at h
  split at h
  · exact Option.noConfusion h
  · cases h; rfl

theorem ssd_advance_trans_write_pointer_maptbl (spp : SSDParams) (s s' : SSD)
    (h : ssd_advance_trans_write_pointer spp s = some s') : s'.maptbl = s.maptbl := by
  unfold ssd_advance_trans_write_pointer at h
  repeat' split at h
  all_goals try exact Option.noConfusion h
  all_goals try (cases h; rfl)
  next pr newl s2 heq =>
    cases h
    have := get_next_free_line_maptbl _ newl s2 heq
    simpa using this

theorem translation_page_new_write_maptbl (spp : SSDParams) (s : SSD) (tvpn now : Nat)
    (p : Nat × SSD) (h : translation_page_new_write spp s tvpn now = some p) :
    p.2.maptbl = s.maptbl := by
  unfold translation_page_new_write at h
  rw [Option.map_eq_some'] at h
  obtain ⟨s5, hadv, hp⟩ := h
  have h5 := ssd_advance_trans_write_pointer_maptbl spp _ s5 hadv
  simp only [mark_page_valid_maptbl, set_rmap_ent_maptbl, set_gtd_ent_maptbl] at h5
  rw [← hp]
  simpa using h5

theorem translation_page_write_maptbl (spp : SSDParams) (s : SSD) (old_ppa : Ppa)
    (now : Nat) (p : Nat × SSD) (h : translation_page_write spp s old_ppa now = some p) :
    p.2.maptbl = s.maptbl := by
  unfold translation_page_write at h
  rw [Option.map_eq_some'] at h
  obtain ⟨s5, hadv, hp⟩ := h
  have h5 := ssd_advance_trans_write_pointer_maptbl spp _ s5 hadv
  simp only [mark_page_valid_maptbl, set_rmap_ent_maptbl, set_gtd_ent_maptbl] at h5
  rw [← hp]
  by_cases hm : mapped_ppa old_ppa <;> simp [hm] at h5 <;> simpa using h5

theorem evict_writeback_maptbl (spp : SSDParams) (s0 : SSD) (lpn : Nat)
    (dirty : Bool) (now : Nat) (s2 : SSD)
    (h : evict_writeback spp s0 lpn dirty now = some s2) : s2.maptbl = s0.maptbl := by
  unfold evict_writeback at h
  dsimp only at h
  split at h
  · split at h
    · rw [Option.map_eq_some'] at h
      obtain ⟨p, hp, hps⟩ := h
      rw [← hps]
      exact translation_page_new_write_maptbl spp _ _ _ p hp
    · rw [Option.map_eq_some'] at h
      obtain ⟨p, hp, hps⟩ := h
      rw [← hps]
      have := translation_page_write_maptbl spp _ _ _ p hp
      simpa using this
  · cases h; rfl

theorem insert_entry_to_cmt_maptbl (s : SSD) (lpn ppn : Nat) (s' : SSD)
    (h : insert_entry_to_cmt s lpn ppn = some s') : s'.maptbl = s.maptbl := by
  unfold insert_entry_to_cmt at h
  split at h
  · exact Option.noConfusion h
  · cases h; rfl

theorem evict_entry_from_cmt_maptbl (spp : SSDParams) (s : SSD) (now : Nat) (s' : SSD)
    (h : evict_entry_from_cmt spp s now = some s') : s'.maptbl = s.maptbl := by
  unfold evict_entry_from_cmt at h
  split at h
  · exact Option.noConfusion h
  · rw [Option.bind_eq_some] at h
    obtain ⟨s2, hwb, hfin⟩ := h
    cases hfin
    have := evict_writeback_maptbl spp _ _ _ now s2 hwb
    simpa using this

theorem cmt_fill_maptbl (spp : SSDParams) (s : SSD) (lpn ppn now : Nat) (s' : SSD)
    (h : cmt_fill spp s lpn ppn now = some s') : s'.maptbl = s.maptbl := by
  unfold cmt_fill at h
  split at h
  · exact insert_entry_to_cmt_maptbl s lpn ppn s' h
  · split at h
    · rw [Option.bind_eq_some] at h
      obtain ⟨s1, hev, hins⟩ := h
      rw [insert_entry_to_cmt_maptbl s1 lpn ppn s' hins]
      exact evict_entry_from_cmt_maptbl spp s now s1 hev
    · cases h; rfl

theorem process_translation_page_read_maptbl (spp : SSDParams) (s : SSD)
    (req_stime lpn now : Nat) (pr : Option LunId × SSD)
    (h : process_translation_page_read spp s req_stime lpn now = some pr) :
    pr.2.maptbl = s.maptbl := by
  unfold process_translation_page_read at h
  dsimp only at h
  split at h
  · cases h; rfl
  · split at h
    · cases h
      simp [translation_page_read]
    · rw [Option.map_eq_some'] at h
      obtain ⟨s2, hfill, hpr⟩ := h
      rw [← hpr]
      have := cmt_fill_maptbl spp _ lpn _ now s2 hfill
      simp only [translation_page_read, ssd_advance_status_snd_maptbl] at this
      exact this

theorem cmt_hit_snd_maptbl (s : SSD) (lpn : Nat) :
    (cmt_hit s lpn).2.maptbl = s.maptbl := by
  unfold cmt_hit
  split <;> rfl

theorem ssd_read_lpn_maptbl (spp : SSDParams) (req_stime now : Nat) (s : SSD)
    (maxlat lpn : Nat) (a : SSD × Nat)
    (h : ssd_read_lpn spp req_stime now s maxlat lpn = some a) :
    a.1.maptbl = s.maptbl := by
  unfold ssd_read_lpn at h
  dsimp only at h
  split at h
  next val s1 hhit =>
    have h1 : s1.maptbl = s.maptbl := by
      have h2 := congrArg (fun x : Option Nat × SSD => x.2.maptbl) hhit
      simp only [cmt_hit_snd_maptbl] at h2
      exact h2.symm
    split at h
    · cases h; exact h1
    · cases h; simpa using h1
  next s1 hmiss =>
    have h1 : s1.maptbl = s.maptbl := by
      have h2 := congrArg (fun x : Option Nat × SSD => x.2.maptbl) hmiss
      simp only [cmt_hit_snd_maptbl] at h2
      exact h2.symm
    rw [Option.bind_eq_some] at h
    obtain ⟨pr, hpr, h2⟩ := h
    have hm : pr.2.maptbl = s.maptbl := by
      have h3 := process_translation_page_read_maptbl spp _ req_stime lpn now pr hpr
      exact h3.trans h1
    split at h2
    · cases h2; exact hm
    · split at h2
      · exact Option.noConfusion h2
      · cases h2; simpa using hm

theorem ssd_read_lpns_maptbl (spp : SSDParams) (req_stime now : Nat) :
    ∀ (lpns : List Nat) (s : SSD) (maxlat : Nat) (a : SSD × Nat),
      ssd_read_lpns spp req_stime now lpns s maxlat = some a →
      a.1.maptbl = s.maptbl := by
  intro lpns
  induction lpns with
  | nil => intro s maxlat a h; cases h; rfl
  | cons lpn rest ih =>
      intro s maxlat a h
      unfold ssd_read_lpns at h
      rw [Option.bind_eq_some] at h
      obtain ⟨b, hb, hrest⟩ := h
      rw [ih b.1 b.2 a hrest]
      exact ssd_read_lpn_maptbl spp req_stime now s maxlat lpn b hb

/-- C10: `ssd_read` leaves the forward map unchanged — no `maptbl` entry
is written anywhere on the read path, including the translation-page fetch
on a CMT miss, the CMT insertion it performs, and any dirty-entry eviction
(translation-page write-back) that insertion triggers. -/
theorem ssd_read_preserves_maptbl (spp : SSDParams) (s : SSD) (req : NvmeRequest)
    (now : Nat) (r : Nat × SSD) (h : ssd_read spp s req now = some r) :
    r.2.maptbl = s.maptbl := by
  unfold ssd_read at h
  rw [Option.map_eq_some'] at h
  obtain ⟨a, ha, hr⟩ := h
  rw [← hr]
  exact ssd_read_lpns_maptbl spp req.stime now _ s 0 a ha

/-- Witness for C10: a concrete read on the pristine toy device succeeds
(touching only the statistics) and leaves `maptbl` untouched. -/
theorem ssd_read_preserves_maptbl_witness :
    (ssd_read sppW (ssd_init sppW) { opcode := NVME_CMD_READ, slba := 0, nlb := 1, stime := 7 } 5 =
      some (0, { ssd_init sppW with stat_access_cnt := 1, stat_cmt_miss_cnt := 1 })) ∧
    ({ ssd_init sppW with stat_access_cnt := 1, stat_cmt_miss_cnt := 1 } : SSD).maptbl =
      (ssd_init sppW).maptbl :=
  ⟨rfl, ssd_read_preserves_maptbl sppW (ssd_init sppW)
    { opcode := NVME_CMD_READ, slba := 0, nlb := 1, stime := 7 } 5
    (0, { ssd_init sppW with stat_access_cnt := 1, stat_cmt_miss_cnt := 1 }) rfl⟩

/-! ## Claim C8: silent skip of unmapped reads -/

theorem ssd_read_lpn_pristine (spp : SSDParams) (req_stime now : Nat) (s : SSD)
    (maxlat lpn : Nat)
    (h1 : s.maptbl = fun _ => Ppa.unmapped)
    (h2 : s.gtd = fun _ => Ppa.unmapped)
    (h3 : s.cm.ht = fun _ => []) :
    ssd_read_lpn spp req_stime now s maxlat lpn =
      some ({ s with
                stat_access_cnt := s.stat_access_cnt + 1,
                stat_cmt_miss_cnt := s.stat_cmt_miss_cnt + 1 }, maxlat) := by
  unfold ssd_read_lpn cmt_hit find_hash_entry process_translation_page_read
  simp [h1, h2, h3, get_gtd_ent, get_maptbl_ent, mapped_ppa]

theorem ssd_read_lpns_pristine (spp : SSDParams) (req_stime now : Nat) :
    ∀ (lpns : List Nat) (s : SSD) (maxlat : Nat),
      s.maptbl = (fun _ => Ppa.unmapped) →
      s.gtd = (fun _ => Ppa.unmapped) →
      s.cm.ht = (fun _ => []) →
      ∃ s' : SSD, ssd_read_lpns spp req_stime now lpns s maxlat = some (s', maxlat) ∧
        s'.cm.used_list = s.cm.used_list ∧
        s'.maptbl = (fun _ => Ppa.unmapped) := by
  intro lpns
  induction lpns with
  | nil =>
      intro s maxlat h1 h2 h3
      exact ⟨s, rfl, rfl, h1⟩
  | cons lpn rest ih =>
      intro s maxlat h1 h2 h3
      have hstep := ssd_read_lpn_pristine spp req_stime now s maxlat lpn h1 h2 h3
      obtain ⟨s', hrun, hused, hmap⟩ := ih
        { s with stat_access_cnt := s.stat_access_cnt + 1,
                 stat_cmt_miss_cnt := s.stat_cmt_miss_cnt + 1 } maxlat h1 h2 h3
      refine ⟨s', ?_, hused, hmap⟩
      unfold ssd_read_lpns
      rw [hstep, Option.some_bind]
      exact hrun

/-- C8: a READ on a pristine device (every `maptbl` and `gtd` entry
unmapped, CMT hash empty) returns latency 0 and inserts nothing into the
CMT; and in general, any LPN of a read request that resolves to an
unmapped or invalid PPA contributes nothing to the request's returned
`maxlat` (its loop iteration returns the accumulator unchanged). -/
theorem ssd_read_silent_skip (spp : SSDParams) (now : Nat) :
    (∀ (s : SSD) (req : NvmeRequest),
      s.maptbl = (fun _ => Ppa.unmapped) →
      s.gtd = (fun _ => Ppa.unmapped) →
      s.cm.ht = (fun _ => []) →
      s.cm.used_list = [] →
      ∃ s' : SSD, ssd_read spp s req now = some (0, s') ∧ s'.cm.used_list = []) ∧
    (∀ (req_stime maxlat lpn : Nat) (s : SSD) (a : SSD × Nat),
      (!(mapped_ppa (get_maptbl_ent s lpn)) || !(valid_ppa spp (get_maptbl_ent s lpn))) = true →
      ssd_read_lpn spp req_stime now s maxlat lpn = some a →
      a.2 = maxlat) := by
  constructor
  · intro s req h1 h2 h3 h4
    obtain ⟨s', hrun, hused, -⟩ :=
      ssd_read_lpns_pristine spp req.stime now (lpn_range spp req) s 0 h1 h2 h3
    refine ⟨s', ?_, h4 ▸ hused⟩
    unfold ssd_read
    rw [hrun, Option.map_some']
  · intro req_stime maxlat lpn s a hcond h
    simp only [get_maptbl_ent] at hcond
    unfold ssd_read_lpn at h
    dsimp only at h
    split at h
    next val s1 hhit =>
      have h1 : s1.maptbl = s.maptbl := by
        have h2 := congrArg (fun x : Option Nat × SSD => x.2.maptbl) hhit
        simp only [cmt_hit_snd_maptbl] at h2
        exact h2.symm
      simp only [get_maptbl_ent] at h
      rw [h1, if_pos hcond] at h
      cases h; rfl
    next s1 hmiss =>
      have h1 : s1.maptbl = s.maptbl := by
        have h2 := congrArg (fun x : Option Nat × SSD => x.2.maptbl) hmiss
        simp only [cmt_hit_snd_maptbl] at h2
        exact h2.symm
      rw [Option.bind_eq_some] at h
      obtain ⟨pr, hpr, h2⟩ := h
      have hm : pr.2.maptbl = s.maptbl := by
        have h3 := process_translation_page_read_maptbl spp _ req_stime lpn now pr hpr
        exact h3.trans h1
      simp only [get_maptbl_ent] at h2
      rw [hm, if_pos hcond] at h2
      cases h2; rfl

/-- Witness for C8: the pristine toy device read `slba=0 nlb=4` returns
latency 0 with the CMT still empty, and its LPN 0 — unmapped — satisfies
the silent-skip conclusion. -/
theorem ssd_read_silent_skip_witness :
    (∃ s' : SSD, ssd_read sppW (ssd_init sppW)
        { opcode := NVME_CMD_READ, slba := 0, nlb := 4, stime := 7 } 5 = some (0, s') ∧
      s'.cm.used_list = []) ∧
    ((ssd_read_lpn sppW 7 5 (ssd_init sppW) 0 0 =
        some (({ ssd_init sppW with stat_access_cnt := 1, stat_cmt_miss_cnt := 1 } : SSD), 0)) →
      (0 : Nat) = 0) :=
  ⟨(ssd_read_silent_skip sppW 5).1 (ssd_init sppW)
      { opcode := NVME_CMD_READ, slba := 0, nlb := 4, stime := 7 } rfl rfl rfl rfl,
   fun h => (ssd_read_silent_skip sppW 5).2 7 0 0 (ssd_init sppW)
      (({ ssd_init sppW with stat_access_cnt := 1, stat_cmt_miss_cnt := 1 } : SSD), 0)
      (by decide) h⟩

/-! ## Effect lemmas for the translation-page write path -/

@[simp] theorem ssd_advance_status_snd_trace (spp : SSDParams) (s : SSD) (ppa : Ppa)
    (o : CmdOrigin) (k : NandKind) (st now : Nat) :
    (ssd_advance_status spp s ppa o k st now).2.trace = s.trace ++ [NandEvt.mk o k ppa] := by
  cases k <;> rfl

@[simp] theorem ssd_advance_status_snd_gtd (spp : SSDParams) (s : SSD) (ppa : Ppa)
    (o : CmdOrigin) (k : NandKind) (st now : Nat) :
    (ssd_advance_status spp s ppa o k st now).2.gtd = s.gtd := by
  cases k <;> rfl

@[simp] theorem ssd_advance_status_snd_rmap (spp : SSDParams) (s : SSD) (ppa : Ppa)
    (o : CmdOrigin) (k : NandKind) (st now : Nat) :
    (ssd_advance_status spp s ppa o k st now).2.rmap = s.rmap := by
  cases k <;> rfl

@[simp] theorem ssd_advance_status_snd_pages (spp : SSDParams) (s : SSD) (ppa : Ppa)
    (o : CmdOrigin) (k : NandKind) (st now : Nat) :
    (ssd_advance_status spp s ppa o k st now).2.pages = s.pages := by
  cases k <;> rfl

@[simp] theorem ssd_advance_status_snd_twp (spp : SSDParams) (s : SSD) (ppa : Ppa)
    (o : CmdOrigin) (k : NandKind) (st now : Nat) :
    (ssd_advance_status spp s ppa o k st now).2.twp = s.twp := by
  cases k <;> rfl

@[simp] theorem mark_page_invalid_pages (spp : SSDParams) (s : SSD) (ppa : Ppa) :
    (mark_page_invalid spp s ppa).pages = fupd s.pages (pageIdOf ppa) PgStatus.invalid := by
  unfold mark_page_invalid
  dsimp only
  split <;> split <;> rfl

@[simp] theorem mark_page_invalid_rmap (spp : SSDParams) (s : SSD) (ppa : Ppa) :
    (mark_page_invalid spp s ppa).rmap = s.rmap := by
  unfold mark_page_invalid
  dsimp only
  split <;> split <;> rfl

@[simp] theorem mark_page_invalid_gtd (spp : SSDParams) (s : SSD) (ppa : Ppa) :
    (mark_page_invalid spp s ppa).gtd = s.gtd := by
  unfold mark_page_invalid
  dsimp only
  split <;> split <;> rfl

@[simp] theorem mark_page_invalid_trace (spp : SSDParams) (s : SSD) (ppa : Ppa) :
    (mark_page_invalid spp s ppa).trace = s.trace := by
  unfold mark_page_invalid
  dsimp only
  split <;> split <;> rfl

@[simp] theorem mark_page_invalid_twp (spp : SSDParams) (s : SSD) (ppa : Ppa) :
    (mark_page_invalid spp s ppa).twp = s.twp := by
  unfold mark_page_invalid
  dsimp only
  split <;> split <;> rfl

@[simp] theorem mark_page_valid_pages (s : SSD) (ppa : Ppa) :
    (mark_page_valid s ppa).pages = fupd s.pages (pageIdOf ppa) PgStatus.valid := rfl

@[simp] theorem mark_page_valid_rmap (s : SSD) (ppa : Ppa) :
    (mark_page_valid s ppa).rmap = s.rmap := rfl

@[simp] theorem mark_page_valid_gtd (s : SSD) (ppa : Ppa) :
    (mark_page_valid s ppa).gtd = s.gtd := rfl

@[simp] theorem mark_page_valid_trace (s : SSD) (ppa : Ppa) :
    (mark_page_valid s ppa).trace = s.trace := rfl

@[simp] theorem mark_page_valid_twp (s : SSD) (ppa : Ppa) :
    (mark_page_valid s ppa).twp = s.twp := rfl

@[simp] theorem set_gtd_ent_gtd (s : SSD) (tvpn : Nat) (ppa : Ppa) :
    (set_gtd_ent s tvpn ppa).gtd = fupd s.gtd tvpn ppa := rfl

@[simp] theorem set_gtd_ent_rmap (s : SSD) (tvpn : Nat) (ppa : Ppa) :
    (set_gtd_ent s tvpn ppa).rmap = s.rmap := rfl

@[simp] theorem set_gtd_ent_pages (s : SSD) (tvpn : Nat) (ppa : Ppa) :
    (set_gtd_ent s tvpn ppa).pages = s.pages := rfl

@[simp] theorem set_gtd_ent_trace (s : SSD) (tvpn : Nat) (ppa : Ppa) :
    (set_gtd_ent s tvpn ppa).trace = s.trace := rfl

@[simp] theorem set_gtd_ent_twp (s : SSD) (tvpn : Nat) (ppa : Ppa) :
    (set_gtd_ent s tvpn ppa).twp = s.twp := rfl

@[simp] theorem set_rmap_ent_rmap (spp : SSDParams) (s : SSD) (lpn : Nat) (ppa : Ppa) :
    (set_rmap_ent spp s lpn ppa).rmap = fupd s.rmap (ppa2pgidx spp ppa) lpn := rfl

@[simp] theorem set_rmap_ent_gtd (spp : SSDParams) (s : SSD) (lpn : Nat) (ppa : Ppa) :
    (set_rmap_ent spp s lpn ppa).gtd = s.gtd := rfl

@[simp] theorem set_rmap_ent_pages (spp : SSDParams) (s : SSD) (lpn : Nat) (ppa : Ppa) :
    (set_rmap_ent spp s lpn ppa).pages = s.pages := rfl

@[simp] theorem set_rmap_ent_trace (spp : SSDParams) (s : SSD) (lpn : Nat) (ppa : Ppa) :
    (set_rmap_ent spp s lpn ppa).trace = s.trace := rfl

@[simp] theorem set_rmap_ent_twp (spp : SSDParams) (s : SSD) (lpn : Nat) (ppa : Ppa) :
    (set_rmap_ent spp s lpn ppa).twp = s.twp := rfl

@[simp] theorem retire_line_gtd (spp : SSDParams) (s : SSD) (cur : Nat) :
    (retire_line spp s cur).gtd = s.gtd := by
  unfold retire_line; split <;> rfl

@[simp] theorem retire_line_rmap (spp : SSDParams) (s : SSD) (cur : Nat) :
    (retire_line spp s cur).rmap = s.rmap := by
  unfold retire_line; split <;> rfl

@[simp] theorem retire_line_pages (spp : SSDParams) (s : SSD) (cur : Nat) :
    (retire_line spp s cur).pages = s.pages := by
  unfold retire_line; split <;> rfl

@[simp] theorem retire_line_trace (spp : SSDParams) (s : SSD) (cur : Nat) :
    (retire_line spp s cur).trace = s.trace := by
  unfold retire_line; split <;> rfl

theorem get_next_free_line_frames (s : SSD) (l : Nat) (s' : SSD)
    (h : get_next_free_line s = some (l, s')) :
    s'.gtd = s.gtd ∧ s'.rmap = s.rmap ∧ s'.pages = s.pages ∧ s'.trace = s.trace ∧
      s'.maptbl = s.maptbl := by
  unfold get_next_free_line at h
  split at h
  · exact Option.noConfusion h
  · cases h; exact ⟨rfl, rfl, rfl, rfl, rfl⟩

theorem ssd_advance_trans_write_pointer_frames (spp : SSDParams) (s s' : SSD)
    (h : ssd_advance_trans_write_pointer spp s = some s') :
    s'.gtd = s.gtd ∧ s'.rmap = s.rmap ∧ s'.pages = s.pages ∧ s'.trace = s.trace ∧
      s'.maptbl = s.maptbl := by
  unfold ssd_advance_trans_write_pointer at h
  repeat' split at h
  all_goals try exact Option.noConfusion h
  all_goals try (cases h; exact ⟨rfl, rfl, rfl, rfl, rfl⟩)
  next pr newl s2 heq =>
    cases h
    have h2 := get_next_free_line_frames _ newl s2 heq
    simp only [retire_line_gtd, retire_line_rmap, retire_line_pages, retire_line_trace,
      retire_line_maptbl] at h2
    constructor
    · simpa using h2.1
    constructor
    · simpa using h2.2.1
    constructor
    · simpa using h2.2.2.1
    constructor
    · simpa using h2.2.2.2.1
    · simpa using h2.2.2.2.2

theorem ssd_advance_write_pointer_frames (spp : SSDParams) (s s' : SSD)
    (h : ssd_advance_write_pointer spp s = some s') :
    s'.gtd = s.gtd ∧ s'.rmap = s.rmap ∧ s'.pages = s.pages ∧ s'.trace = s.trace ∧
      s'.maptbl = s.maptbl := by
  unfold ssd_advance_write_pointer at h
  repeat' split at h
  all_goals try exact Option.noConfusion h
  all_goals try (cases h; exact ⟨rfl, rfl, rfl, rfl, rfl⟩)
  next pr newl s2 heq =>
    cases h
    have h2 := get_next_free_line_frames _ newl s2 heq
    simp only [retire_line_gtd, retire_line_rmap, retire_line_pages, retire_line_trace,
      retire_line_maptbl] at h2
    constructor
    · simpa using h2.1
    constructor
    · simpa using h2.2.1
    constructor
    · simpa using h2.2.2.1
    constructor
    · simpa using h2.2.2.2.1
    · simpa using h2.2.2.2.2

theorem translation_page_new_write_spec (spp : SSDParams) (s : SSD) (tvpn now : Nat)
    (p : Nat × SSD) (h : translation_page_new_write spp s tvpn now = some p) :
    p.2.gtd = fupd s.gtd tvpn (get_new_trans_page s) ∧
    p.2.rmap = fupd s.rmap (ppa2pgidx spp (get_new_trans_page s)) tvpn ∧
    p.2.pages = fupd s.pages (pageIdOf (get_new_trans_page s)) PgStatus.valid ∧
    p.2.trace = s.trace ++
      [NandEvt.mk CmdOrigin.user NandKind.write (get_new_trans_page s)] := by
  unfold translation_page_new_write at h
  rw [Option.map_eq_some'] at h
  obtain ⟨s5, hadv, hp⟩ := h
  have hf := ssd_advance_trans_write_pointer_frames spp _ s5 hadv
  simp only [mark_page_valid_gtd, mark_page_valid_rmap, mark_page_valid_pages,
    mark_page_valid_trace, set_rmap_ent_gtd, set_rmap_ent_rmap, set_rmap_ent_pages,
    set_rmap_ent_trace, set_gtd_ent_gtd, set_gtd_ent_rmap, set_gtd_ent_pages,
    set_gtd_ent_trace] at hf
  rw [← hp]
  simp only [ssd_advance_status_snd_gtd, ssd_advance_status_snd_rmap,
    ssd_advance_status_snd_pages, ssd_advance_status_snd_trace]
  exact ⟨hf.1, hf.2.1, hf.2.2.1, by rw [hf.2.2.2.1]⟩

theorem translation_page_write_spec (spp : SSDParams) (s : SSD) (old_ppa : Ppa)
    (now : Nat) (p : Nat × SSD) (hm : mapped_ppa old_ppa = true)
    (h : translation_page_write spp s old_ppa now = some p) :
    p.2.gtd = fupd s.gtd (get_rmap_ent spp s old_ppa) (get_new_trans_page s) ∧
    p.2.rmap = fupd (fupd s.rmap (ppa2pgidx spp old_ppa) INVALID_LPN)
      (ppa2pgidx spp (get_new_trans_page s)) (get_rmap_ent spp s old_ppa) ∧
    p.2.pages = fupd (fupd s.pages (pageIdOf old_ppa) PgStatus.invalid)
      (pageIdOf (get_new_trans_page s)) PgStatus.valid ∧
    p.2.trace = s.trace ++
      [NandEvt.mk CmdOrigin.user NandKind.write (get_new_trans_page s)] := by
  unfold translation_page_write at h
  rw [hm] at h
  simp only [if_true] at h
  rw [Option.map_eq_some'] at h
  obtain ⟨s5, hadv, hp⟩ := h
  have hf := ssd_advance_trans_write_pointer_frames spp _ s5 hadv
  simp only [mark_page_valid_gtd, mark_page_valid_rmap, mark_page_valid_pages,
    mark_page_valid_trace, set_rmap_ent_gtd, set_rmap_ent_rmap, set_rmap_ent_pages,
    set_rmap_ent_trace, set_gtd_ent_gtd, set_gtd_ent_rmap, set_gtd_ent_pages,
    set_gtd_ent_trace, mark_page_invalid_gtd, mark_page_invalid_rmap,
    mark_page_invalid_pages, mark_page_invalid_trace] at hf
  have htwp : get_new_trans_page
      (set_rmap_ent spp (mark_page_invalid spp s old_ppa) INVALID_LPN old_ppa) =
      get_new_trans_page s := by
    unfold get_new_trans_page
    rw [set_rmap_ent_twp, mark_page_invalid_twp]
  rw [htwp] at hf hadv hp
  rw [← hp]
  simp only [ssd_advance_status_snd_gtd, ssd_advance_status_snd_rmap,
    ssd_advance_status_snd_pages, ssd_advance_status_snd_trace]
  exact ⟨hf.1, hf.2.1, hf.2.2.1, by rw [hf.2.2.2.1]⟩

/-- Branch characterization of `evict_writeback` when `gtd[tvpn]` is
unmapped or invalid: a fresh translation page is allocated and written. -/
theorem evict_writeback_fresh_spec (spp : SSDParams) (s0 : SSD) (lpn now : Nat)
    (s2 : SSD)
    (hg : (!(mapped_ppa (get_gtd_ent s0 (lpn / spp.ents_per_pg))) ||
           !(valid_ppa spp (get_gtd_ent s0 (lpn / spp.ents_per_pg)))) = true)
    (h : evict_writeback spp s0 lpn true now = some s2) :
    s2.gtd = fupd s0.gtd (lpn / spp.ents_per_pg) (get_new_trans_page s0) ∧
    s2.rmap = fupd s0.rmap (ppa2pgidx spp (get_new_trans_page s0)) (lpn / spp.ents_per_pg) ∧
    s2.pages = fupd s0.pages (pageIdOf (get_new_trans_page s0)) PgStatus.valid ∧
    s2.trace = s0.trace ++
      [NandEvt.mk CmdOrigin.user NandKind.write (get_new_trans_page s0)] := by
  unfold evict_writeback at h
  dsimp only at h
  rw [if_pos (rfl : (true : Bool) = true), if_pos hg] at h
  rw [Option.map_eq_some'] at h
  obtain ⟨p, hp, hps⟩ := h
  have hspec := translation_page_new_write_spec spp s0 _ now p hp
  rw [← hps]
  exact hspec

/-- Branch characterization of `evict_writeback` when `gtd[tvpn]` is mapped
and valid: the old page is read and invalidated, then the fresh page is
written. -/
theorem evict_writeback_rewrite_spec (spp : SSDParams) (s0 : SSD) (lpn now : Nat)
    (s2 : SSD)
    (hg : (mapped_ppa (get_gtd_ent s0 (lpn / spp.ents_per_pg)) &&
           valid_ppa spp (get_gtd_ent s0 (lpn / spp.ents_per_pg))) = true)
    (h : evict_writeback spp s0 lpn true now = some s2) :
    s2.gtd = fupd s0.gtd (get_rmap_ent spp s0 (get_gtd_ent s0 (lpn / spp.ents_per_pg)))
      (get_new_trans_page s0) ∧
    s2.rmap = fupd (fupd s0.rmap (ppa2pgidx spp (get_gtd_ent s0 (lpn / spp.ents_per_pg)))
        INVALID_LPN) (ppa2pgidx spp (get_new_trans_page s0))
        (get_rmap_ent spp s0 (get_gtd_ent s0 (lpn / spp.ents_per_pg))) ∧
    s2.pages = fupd (fupd s0.pages (pageIdOf (get_gtd_ent s0 (lpn / spp.ents_per_pg)))
        PgStatus.invalid) (pageIdOf (get_new_trans_page s0)) PgStatus.valid ∧
    s2.trace = s0.trace ++
      [NandEvt.mk CmdOrigin.user NandKind.read (get_gtd_ent s0 (lpn / spp.ents_per_pg)),
       NandEvt.mk CmdOrigin.user NandKind.write (get_new_trans_page s0)] := by
  rw [Bool.and_eq_true] at hg
  unfold evict_writeback at h
  dsimp only at h
  rw [if_pos (rfl : (true : Bool) = true), if_neg (by simp [hg.1, hg.2])] at h
  rw [Option.map_eq_some'] at h
  obtain ⟨p, hp, hps⟩ := h
  have hspec := translation_page_write_spec spp
    ((translation_page_read_no_req spp s0 (get_gtd_ent s0 (lpn / spp.ents_per_pg)) now).2)
    (get_gtd_ent s0 (lpn / spp.ents_per_pg)) now p hg.1 hp
  rw [← hps]
  unfold translation_page_read_no_req at hspec
  unfold get_rmap_ent get_new_trans_page at hspec
  simp only [ssd_advance_status_snd_gtd, ssd_advance_status_snd_rmap,
    ssd_advance_status_snd_pages, ssd_advance_status_snd_trace,
    ssd_advance_status_snd_twp] at hspec
  unfold get_rmap_ent get_new_trans_page
  refine ⟨hspec.1, hspec.2.1, hspec.2.2.1, ?_⟩
  rw [hspec.2.2.2]
  simp

/-! ## Claim C2: dirty CMT eviction -/

/-- C2: evicting a dirty CMT entry (the LRU tail `idx`, caching `lpn` with
`tvpn = lpn / ents_per_pg`) always resets the entry and returns it to the
free list, and writes the translation page back in one of two ways.  If
`gtd[tvpn]` is unmapped or invalid, a fresh translation page `tp` is taken
from the `twp` frontier, `gtd[tvpn]` and `rmap` point at it, it is marked
valid, and exactly one NAND write (no NAND read) is charged.  Otherwise one
NAND read is charged at the old page, which is marked invalid with its
`rmap` entry cleared to `INVALID_LPN`, and the same allocate / set-gtd /
set-rmap / mark-valid / one-NAND-write steps follow (`twp` advancing inside
`ssd_advance_trans_write_pointer`, whose success the `some` hypothesis
includes). -/
theorem evict_entry_dirty_spec (spp : SSDParams) (s : SSD) (now idx : Nat)
    (tvpn : Nat) (old tp : Ppa)
    (hlast : s.cm.used_list.getLast? = some idx)
    (hdirty : (s.cm.entries idx).dirty = true)
    (htv : tvpn = (s.cm.entries idx).lpn / spp.ents_per_pg)
    (hold : old = s.gtd tvpn)
    (htp : tp = get_new_trans_page s)
    (s' : SSD) (hev : evict_entry_from_cmt spp s now = some s') :
    (s'.cm.used_list = s.cm.used_list.dropLast ∧
     s'.cm.free_list = s.cm.free_list ++ [idx] ∧
     s'.cm.entries idx = { lpn := INVALID_LPN, ppn := UNMAPPED_PPA_NUM, dirty := false }) ∧
    ((!(mapped_ppa old) || !(valid_ppa spp old)) = true →
      s'.gtd tvpn = tp ∧ mapped_ppa tp = true ∧
      s'.pages (pageIdOf tp) = PgStatus.valid ∧
      s'.rmap (ppa2pgidx spp tp) = tvpn ∧
      s'.trace = s.trace ++ [NandEvt.mk CmdOrigin.user NandKind.write tp]) ∧
    ((mapped_ppa old && valid_ppa spp old) = true →
      s.rmap (ppa2pgidx spp old) = tvpn →
      pageIdOf tp ≠ pageIdOf old →
      ppa2pgidx spp tp ≠ ppa2pgidx spp old →
      s'.gtd tvpn = tp ∧ mapped_ppa tp = true ∧
      s'.pages (pageIdOf tp) = PgStatus.valid ∧
      s'.rmap (ppa2pgidx spp tp) = tvpn ∧
      s'.pages (pageIdOf old) = PgStatus.invalid ∧
      s'.rmap (ppa2pgidx spp old) = INVALID_LPN ∧
      s'.trace = s.trace ++ [NandEvt.mk CmdOrigin.user NandKind.read old,
                             NandEvt.mk CmdOrigin.user NandKind.write tp]) := by
  subst htv hold htp
  unfold evict_entry_from_cmt at hev
  simp only [hlast] at hev
  rw [Option.bind_eq_some] at hev
  obtain ⟨s2, hwb, hfin⟩ := hev
  have hcm2 := evict_writeback_cm spp _ _ _ now s2 hwb
  have hwb2 : evict_writeback spp
      ({ s with cm := { s.cm with used_list := s.cm.used_list.dropLast } } : SSD)
      ((s.cm.entries idx).lpn) true now = some s2 := by
    rw [← hdirty]
    exact hwb
  cases hfin
  refine ⟨⟨?_, ?_, ?_⟩, ?_, ?_⟩
  · show ((delete_cmt_hashnode s2.cm idx).2).used_list = _
    simp [delete_cmt_hashnode, hcm2]
  · show ((delete_cmt_hashnode s2.cm idx).2).free_list ++ [idx] = _
    simp [delete_cmt_hashnode, hcm2]
  · simp [delete_cmt_hashnode, fupd]
  · intro hA
    have hq := evict_writeback_fresh_spec spp
        ({ s with cm := { s.cm with used_list := s.cm.used_list.dropLast } } : SSD)
        ((s.cm.entries idx).lpn) now s2 hA hwb2
    have e1 : ({ s with cm := { s.cm with used_list := s.cm.used_list.dropLast } } : SSD).gtd
        = s.gtd := rfl
    have e2 : get_new_trans_page
        ({ s with cm := { s.cm with used_list := s.cm.used_list.dropLast } } : SSD)
        = get_new_trans_page s := rfl
    have e3 : ({ s with cm := { s.cm with used_list := s.cm.used_list.dropLast } } : SSD).rmap
        = s.rmap := rfl
    have e4 : ({ s with cm := { s.cm with used_list := s.cm.used_list.dropLast } } : SSD).pages
        = s.pages := rfl
    have e5 : ({ s with cm := { s.cm with used_list := s.cm.used_list.dropLast } } : SSD).trace
        = s.trace := rfl
    rw [e1, e2, e3, e4, e5] at hq
    refine ⟨?_, rfl, ?_, ?_, ?_⟩
    · show s2.gtd _ = _
      rw [hq.1, fupd_same]
    · show s2.pages _ = _
      rw [hq.2.2.1, fupd_same]
    · show s2.rmap _ = _
      rw [hq.2.1, fupd_same]
    · show s2.trace = _
      rw [hq.2.2.2]
  · intro hB hrm hne1 hne2
    have hq := evict_writeback_rewrite_spec spp
        ({ s with cm := { s.cm with used_list := s.cm.used_list.dropLast } } : SSD)
        ((s.cm.entries idx).lpn) now s2 hB hwb2
    have e1 : ({ s with cm := { s.cm with used_list := s.cm.used_list.dropLast } } : SSD).gtd
        = s.gtd := rfl
    have e2 : get_new_trans_page
        ({ s with cm := { s.cm with used_list := s.cm.used_list.dropLast } } : SSD)
        = get_new_trans_page s := rfl
    have e3 : ({ s with cm := { s.cm with used_list := s.cm.used_list.dropLast } } : SSD).rmap
        = s.rmap := rfl
    have e4 : ({ s with cm := { s.cm with used_list := s.cm.used_list.dropLast } } : SSD).pages
        = s.pages := rfl
    have e5 : ({ s with cm := { s.cm with used_list := s.cm.used_list.dropLast } } : SSD).trace
        = s.trace := rfl
    have e6 : get_rmap_ent spp
        ({ s with cm := { s.cm with used_list := s.cm.used_list.dropLast } } : SSD)
        (s.gtd ((s.cm.entries idx).lpn / spp.ents_per_pg)) =
        s.rmap (ppa2pgidx spp (s.gtd ((s.cm.entries idx).lpn / spp.ents_per_pg))) := rfl
    have e7 : get_gtd_ent
        ({ s with cm := { s.cm with used_list := s.cm.used_list.dropLast } } : SSD)
        ((s.cm.entries idx).lpn / spp.ents_per_pg) =
        s.gtd ((s.cm.entries idx).lpn / spp.ents_per_pg) := rfl
    rw [e7, e6, e1, e2, e3, e4, e5, hrm] at hq
    refine ⟨?_, rfl, ?_, ?_, ?_, ?_, ?_⟩
    · show s2.gtd _ = _
      rw [hq.1, fupd_same]
    · show s2.pages _ = _
      rw [hq.2.2.1, fupd_same]
    · show s2.rmap _ = _
      rw [hq.2.1, fupd_same]
    · show s2.pages _ = _
      rw [hq.2.2.1, fupd_other _ _ _ _ (Ne.symm hne1), fupd_same]
    · show s2.rmap _ = _
      rw [hq.2.1, fupd_other _ _ _ _ (Ne.symm hne2), fupd_same]
    · show s2.trace = _
      rw [hq.2.2.2]

theorem evict_entry_dirty_spec_witness :
    evS2.cm.used_list = [] ∧ evS2.cm.free_list = [1, 0] ∧
    evS2.gtd 0 = Ppa.addr 0 0 0 1 1 0 ∧
    evS2.pages (0, 0, 0, 1, 1) = PgStatus.valid ∧
    evS2.rmap 3 = 0 ∧
    evS2.pages (0, 0, 0, 1, 0) = PgStatus.invalid ∧
    evS2.rmap 2 = INVALID_LPN ∧
    evS2.trace = [NandEvt.mk CmdOrigin.user NandKind.read (Ppa.addr 0 0 0 1 0 0),
                  NandEvt.mk CmdOrigin.user NandKind.write (Ppa.addr 0 0 0 1 1 0)] := by
  have h := evict_entry_dirty_spec sppW evS 5 0 0
    (Ppa.addr 0 0 0 1 0 0) (Ppa.addr 0 0 0 1 1 0)
    rfl rfl rfl rfl rfl evS2 rfl
  have hb := h.2.2 (by decide) rfl (by decide) (by decide)
  exact ⟨h.1.1.trans rfl, h.1.2.1.trans rfl, hb.1, hb.2.2.1, hb.2.2.2.1,
         hb.2.2.2.2.1, hb.2.2.2.2.2.1, hb.2.2.2.2.2.2⟩

/-! ## Claim C5: foreground GC before writes -/
/-- Exit condition of the foreground-GC loop: a successful run ends in a
state where the high watermark has cleared or no victim line remains. -/
theorem ssd_write_gc_loop_exit (spp : SSDParams) (now : Nat) :
    ∀ (fuel : Nat) (s s1 : SSD), ssd_write_gc_loop spp now fuel s = some s1 →
      should_gc_high s1 spp = false ∨ (select_victim_line spp s1 true).1 = none := by
  intro fuel
  induction fuel with
  | zero => intro s s1 h; exact absurd h (by simp [ssd_write_gc_loop])
  | succ n ih =>
    intro s s1 h
    unfold ssd_write_gc_loop at h
    by_cases hg : should_gc_high s spp
    · rw [if_pos hg, Option.bind_eq_some] at h
      obtain ⟨r, hgc, hr⟩ := h
      by_cases hneg : r.1 = -1
      · rw [if_pos hneg] at hr
        cases hr
        unfold do_gc at hgc
        right
        cases hsel : select_victim_line spp s true with
        | mk o s' =>
          cases o with
          | none =>
            rw [hsel] at hgc
            cases hgc
            rw [hsel]
          | some v =>
            rw [hsel] at hgc
            simp only [Option.map_eq_some'] at hgc
            obtain ⟨s2, -, hpair⟩ := hgc
            rw [← hpair] at hneg
            simp at hneg
      · rw [if_neg hneg] at hr
        exact ih r.2 s1 hr
    · rw [if_neg hg] at h
      cases h
      left
      exact eq_false_of_ne_true hg

/-- C5: `ssd_write` never begins per-LPN processing while the free-line
count is at or below the high watermark and a victim line can still be
reclaimed.  Every successful `ssd_write` factors as the foreground-GC loop
(`while (should_gc_high) { if (do_gc(force=true) == -1) break; }`) reaching
a state `s1` in which `should_gc_high` is false or `select_victim_line`
with `force = true` finds no victim, followed by the per-LPN write loop
started from `s1`. -/
theorem ssd_write_foreground_gc (spp : SSDParams) (s : SSD) (req : NvmeRequest)
    (now fuel lat : Nat) (s' : SSD)
    (h : ssd_write spp s req now fuel = some (lat, s')) :
    ∃ s1 : SSD, ssd_write_gc_loop spp now fuel s = some s1 ∧
      (should_gc_high s1 spp = false ∨ (select_victim_line spp s1 true).1 = none) ∧
      (ssd_write_lpns spp req.stime now (lpn_range spp req) s1 0).map
        (fun a => (a.2, a.1)) = some (lat, s') := by
  unfold ssd_write at h
  rw [Option.bind_eq_some] at h
  obtain ⟨s1, h1, h2⟩ := h
  exact ⟨s1, h1, ssd_write_gc_loop_exit spp now fuel s s1 h1, h2⟩

theorem ssd_write_foreground_gc_witness :
    should_gc_high wS1 sppW = false ∨ (select_victim_line sppW wS1 true).1 = none := by
  obtain ⟨s1, h1, h2, -⟩ :=
    ssd_write_foreground_gc sppW gcS wReq 5 4 wRes.1 wRes.2 rfl
  have hs : wS1 = s1 := by unfold wS1; rw [h1]; rfl
  rw [hs]
  exact h2

/-! ## Claim C1: GC and the map invariants -/

/-- C1 counterexample: `gcS` satisfies all three map invariants, `do_gc`
on it completes a cycle (returns `0`), yet the resulting state violates
invariant (2): the victim's relocated page `(0,0,0,2,0)` is back to
`PG_FREE` (`mark_block_free`) while its reverse-map entry still holds LPN
`0` — `gc_write_page` never clears the old page's `rmap`. -/
theorem do_gc_breaks_map_invariants :
    MapInvariants sppW gcS ∧
    (do_gc sppW gcS false 5).map Prod.fst = some 0 ∧
    gcR.2.rmap 4 = 0 ∧ gcR.2.pages (0, 0, 0, 2, 0) = PgStatus.free ∧
    ¬ rmap_map_inv sppW gcR.2 ∧
    ¬ MapInvariants sppW gcR.2 := by
  decide

/-- `gc_read_page` never touches `maptbl`. -/
theorem gc_read_page_maptbl (spp : SSDParams) (s : SSD) (ppa : Ppa) (now : Nat) :
    (gc_read_page spp s ppa now).maptbl = s.maptbl := by
  unfold gc_read_page
  split
  · exact ssd_advance_status_snd_maptbl spp s ppa CmdOrigin.gc NandKind.read 0 now
  · rfl

/-- `mark_block_free` never touches `maptbl`. -/
theorem mark_block_free_maptbl (spp : SSDParams) (s : SSD) (ppa : Ppa) :
    (mark_block_free spp s ppa).maptbl = s.maptbl := rfl

/-- `mark_line_free` never touches `maptbl`. -/
theorem mark_line_free_maptbl (s : SSD) (l : Nat) :
    (mark_line_free s l).maptbl = s.maptbl := rfl

/-- `select_victim_line` never touches `maptbl`. -/
theorem select_victim_line_snd_maptbl (spp : SSDParams) (s : SSD) (force : Bool) :
    ((select_victim_line spp s force).2).maptbl = s.maptbl := by
  unfold select_victim_line
  cases pqueue_peek s.victim_pq with
  | none => rfl
  | some v =>
      dsimp only
      split
      · rfl
      · rfl

/-- `gc_translation_page_write` never touches `maptbl`. -/
theorem gc_translation_page_write_maptbl (spp : SSDParams) (s : SSD)
    (old_ppa : Ppa) (now : Nat) (s' : SSD)
    (h : gc_translation_page_write spp s old_ppa now = some s') :
    s'.maptbl = s.maptbl := by
  unfold gc_translation_page_write at h
  rw [Option.map_eq_some'] at h
  obtain ⟨s4, hadv, hs⟩ := h
  have hm := ssd_advance_trans_write_pointer_maptbl spp _ s4 hadv
  simp only [mark_page_valid_maptbl, set_rmap_ent_maptbl, set_gtd_ent_maptbl] at hm
  rw [← hs]
  split
  · rw [ssd_advance_status_snd_maptbl]
    exact hm
  · exact hm

/-- `gc_write_page` remaps one LPN to the (mapped) data-frontier address
and leaves every other `maptbl` entry alone: mapped LPNs stay mapped. -/
theorem gc_write_page_mono (spp : SSDParams) (s : SSD) (old_ppa : Ppa)
    (now : Nat) (s' : SSD) (h : gc_write_page spp s old_ppa now = some s') :
    ∀ lpn, mapped_ppa (s.maptbl lpn) = true → mapped_ppa (s'.maptbl lpn) = true := by
  unfold gc_write_page at h
  rw [Option.map_eq_some'] at h
  obtain ⟨s4, hadv, hs⟩ := h
  have hm := (ssd_advance_write_pointer_frames spp _ s4 hadv).2.2.2.2
  simp only [mark_page_valid_maptbl, set_rmap_ent_maptbl] at hm
  have hs' : s'.maptbl = fupd s.maptbl (get_rmap_ent spp s old_ppa) (get_new_page s) := by
    rw [← hs]
    dsimp only
    split
    · rw [ssd_advance_status_snd_maptbl]
      exact hm
    · exact hm
  intro lpn hlpn
  rw [hs']
  by_cases hc : lpn = get_rmap_ent spp s old_ppa
  · subst hc
    rw [fupd_same]
    rfl
  · rw [fupd_other _ _ _ _ hc]
    exact hlpn

/-- One data-page relocation step keeps mapped LPNs mapped. -/
theorem clean_data_pg_step_mono (spp : SSDParams) (ch lun blk now : Nat)
    (s : SSD) (batch : List Nat) (pg : Nat) (a : SSD × List Nat)
    (h : clean_data_pg_step spp ch lun blk now s batch pg = some a) :
    ∀ lpn, mapped_ppa (s.maptbl lpn) = true → mapped_ppa (a.1.maptbl lpn) = true := by
  unfold clean_data_pg_step at h
  dsimp only at h
  split at h
  · split at h
    · cases h
      intro lpn hlpn
      rwa [gc_read_page_maptbl]
    · rw [Option.bind_eq_some] at h
      obtain ⟨s2, hgw, hrest⟩ := h
      have h1 := gc_write_page_mono spp _ _ now s2 hgw
      split at hrest
      · cases hrest
        intro lpn hlpn
        exact h1 lpn (by rwa [gc_read_page_maptbl])
      · split at hrest
        · cases hrest
          intro lpn hlpn
          exact h1 lpn (by rwa [gc_read_page_maptbl])
        · rw [Option.map_eq_some'] at hrest
          obtain ⟨p, hw, hp⟩ := hrest
          have h2 := translation_page_write_maptbl spp _ _ now p hw
          simp only [translation_page_read_no_req, ssd_advance_status_snd_maptbl] at h2
          intro lpn hlpn
          rw [← hp]
          dsimp only
          rw [h2]
          exact h1 lpn (by rwa [gc_read_page_maptbl])
  · cases h
    intro lpn hlpn
    exact hlpn

/-- The data-block page loop keeps mapped LPNs mapped. -/
theorem clean_data_pgs_mono (spp : SSDParams) (ch lun blk now : Nat) :
    ∀ (pgs : List Nat) (s : SSD) (batch : List Nat) (a : SSD × List Nat),
      clean_data_pgs spp ch lun blk now pgs s batch = some a →
      ∀ lpn, mapped_ppa (s.maptbl lpn) = true → mapped_ppa (a.1.maptbl lpn) = true := by
  intro pgs
  induction pgs with
  | nil =>
    intro s batch a h lpn hlpn
    cases h
    exact hlpn
  | cons pg rest ih =>
    intro s batch a h lpn hlpn
    unfold clean_data_pgs at h
    rw [Option.bind_eq_some] at h
    obtain ⟨b, hstep, hrest⟩ := h
    exact ih b.1 b.2 a hrest lpn (clean_data_pg_step_mono spp ch lun blk now s batch pg b hstep lpn hlpn)

/-- One translation-page relocation step never touches `maptbl`. -/
theorem clean_trans_pg_step_maptbl (spp : SSDParams) (ch lun blk now : Nat)
    (s : SSD) (pg : Nat) (s' : SSD)
    (h : clean_trans_pg_step spp ch lun blk now s pg = some s') :
    s'.maptbl = s.maptbl := by
  unfold clean_trans_pg_step at h
  dsimp only at h
  split at h
  · split at h
    · rw [gc_translation_page_write_maptbl spp _ _ now s' h, gc_read_page_maptbl]
    · cases h
      rw [gc_read_page_maptbl]
  · cases h
    rfl

/-- The translation-block page loop never touches `maptbl`. -/
theorem clean_trans_pgs_maptbl (spp : SSDParams) (ch lun blk now : Nat) :
    ∀ (pgs : List Nat) (s s' : SSD),
      clean_trans_pgs spp ch lun blk now pgs s = some s' → s'.maptbl = s.maptbl := by
  intro pgs
  induction pgs with
  | nil =>
    intro s s' h
    cases h
    rfl
  | cons pg rest ih =>
    intro s s' h
    unfold clean_trans_pgs at h
    rw [Option.bind_eq_some] at h
    obtain ⟨s1, hstep, hrest⟩ := h
    rw [ih s1 s' hrest, clean_trans_pg_step_maptbl spp ch lun blk now s pg s1 hstep]

/-- Cleaning and erasing one victim block keeps mapped LPNs mapped. -/
theorem do_gc_blk_mono (spp : SSDParams) (victim now : Nat) (s : SSD)
    (ch lun : Nat) (s' : SSD) (h : do_gc_blk spp victim now s ch lun = some s') :
    ∀ lpn, mapped_ppa (s.maptbl lpn) = true → mapped_ppa (s'.maptbl lpn) = true := by
  unfold do_gc_blk at h
  dsimp only at h
  rw [Option.map_eq_some'] at h
  obtain ⟨s1, hclean, hs⟩ := h
  have hmono : ∀ lpn, mapped_ppa (s.maptbl lpn) = true →
      mapped_ppa (s1.maptbl lpn) = true := by
    split at hclean
    · unfold clean_one_data_block at hclean
      rw [Option.map_eq_some'] at hclean
      obtain ⟨a, hpgs, ha⟩ := hclean
      intro lpn hlpn
      rw [← ha]
      exact clean_data_pgs_mono spp ch lun victim now _ s [] a hpgs lpn hlpn
    · split at hclean
      · unfold clean_one_trans_block at hclean
        intro lpn hlpn
        rw [clean_trans_pgs_maptbl spp ch lun victim now _ s s1 hclean]
        exact hlpn
      · cases hclean
        intro lpn hlpn
        exact hlpn
  intro lpn hlpn
  have hm : s'.maptbl = s1.maptbl := by
    rw [← hs]
    dsimp only
    split
    · rw [ssd_advance_status_snd_maptbl, mark_block_free_maptbl]
    · rw [mark_block_free_maptbl]
  rw [hm]
  exact hmono lpn hlpn

/-- The LUN loop of `do_gc` keeps mapped LPNs mapped. -/
theorem do_gc_luns_mono (spp : SSDParams) (victim now ch : Nat) :
    ∀ (luns : List Nat) (s s' : SSD),
      do_gc_luns spp victim now ch luns s = some s' →
      ∀ lpn, mapped_ppa (s.maptbl lpn) = true → mapped_ppa (s'.maptbl lpn) = true := by
  intro luns
  induction luns with
  | nil =>
    intro s s' h lpn hlpn
    cases h
    exact hlpn
  | cons lun rest ih =>
    intro s s' h lpn hlpn
    unfold do_gc_luns at h
    rw [Option.bind_eq_some] at h
    obtain ⟨s1, hblk, hrest⟩ := h
    exact ih s1 s' hrest lpn (do_gc_blk_mono spp victim now s ch lun s1 hblk lpn hlpn)

/-- The channel loop of `do_gc` keeps mapped LPNs mapped. -/
theorem do_gc_chs_mono (spp : SSDParams) (victim now : Nat) :
    ∀ (chs : List Nat) (s s' : SSD),
      do_gc_chs spp victim now chs s = some s' →
      ∀ lpn, mapped_ppa (s.maptbl lpn) = true → mapped_ppa (s'.maptbl lpn) = true := by
  intro chs
  induction chs with
  | nil =>
    intro s s' h lpn hlpn
    cases h
    exact hlpn
  | cons ch rest ih =>
    intro s s' h lpn hlpn
    unfold do_gc_chs at h
    rw [Option.bind_eq_some] at h
    obtain ⟨s1, hluns, hrest⟩ := h
    exact ih s1 s' hrest lpn
      (do_gc_luns_mono spp victim now ch (List.range spp.luns_per_ch) s s1 hluns lpn hlpn)

/-- C1 (amended): a completed GC cycle keeps every previously mapped LPN
mapped — relocation only rewrites `maptbl` entries to the (mapped)
data-frontier address — and, when it returns `0`, frees the selected
victim line: its counters are zeroed, its type reset, and it is appended
to the free-line list.  The full map invariants of the original claim are
NOT preserved: invariant (2) fails on the reclaimed line's pages, whose
`rmap` entries are left stale (`do_gc_breaks_map_invariants`). -/
theorem do_gc_mapped_monotone (spp : SSDParams) (s : SSD) (force : Bool)
    (now : Nat) (r : Int) (s' : SSD) (h : do_gc spp s force now = some (r, s')) :
    (∀ lpn, mapped_ppa (s.maptbl lpn) = true → mapped_ppa (s'.maptbl lpn) = true) ∧
    (r = 0 → ∃ victim, (select_victim_line spp s force).1 = some victim ∧
      s'.lines victim = { ipc := 0, vpc := 0, typ := LineType.none } ∧
      s'.free_line_list.getLast? = some victim) := by
  unfold do_gc at h
  cases hsel : select_victim_line spp s force with
  | mk o s1 =>
    rw [hsel] at h
    cases o with
    | none =>
      dsimp only at h
      cases h
      refine ⟨fun lpn hlpn => hlpn, fun hr => absurd hr (by decide)⟩
    | some v =>
      dsimp only at h
      rw [Option.map_eq_some'] at h
      obtain ⟨s2, hchs, hpair⟩ := h
      cases hpair
      have hs1 : s1.maptbl = s.maptbl := by
        have := select_victim_line_snd_maptbl spp s force
        rw [hsel] at this
        exact this
      refine ⟨?_, ?_⟩
      · intro lpn hlpn
        rw [mark_line_free_maptbl]
        exact do_gc_chs_mono spp v now (List.range spp.nchs) s1 s2 hchs lpn
          (by rwa [hs1])
      · intro _
        refine ⟨v, ?_, ?_, ?_⟩
        · rfl
        · show fupd s2.lines v { ipc := 0, vpc := 0, typ := LineType.none } v = _
          rw [fupd_same]
        · show (s2.free_line_list ++ [v]).getLast? = some v
          exact List.getLast?_concat _

/-- The GC cycle on `gcS` keeps LPN `0` mapped and leaves victim line `2`
freed at the tail of the free-line list. -/
theorem do_gc_mapped_monotone_witness :
    mapped_ppa (gcR.2.maptbl 0) = true ∧
    gcR.2.lines 2 = { ipc := 0, vpc := 0, typ := LineType.none } ∧
    gcR.2.free_line_list.getLast? = some 2 := by
  have h := do_gc_mapped_monotone sppW gcS false 5 gcR.1 gcR.2 rfl
  obtain ⟨v, hv, hl, hfl⟩ := h.2 (by decide)
  have hv2 : some v = some 2 := by
    rw [← hv]
    decide
  cases hv2
  exact ⟨h.1 0 rfl, hl, hfl⟩

end Dftl
